import Mathlib

/-!
# REDALERT/AUDMIX.CPP: container parser, precache pass and voice allocation

A shallow embedding of `loadWavFile`, `AudMix_Init`, `AudMix_PlayMusic`,
`PlayAudio`, `On_Sound_Effect` and `On_Speech`.

Conventions of the embedding.

* Bytes are natural numbers (0..255); a file is a list of bytes.
* `long` is the 32-bit signed type of the build target, `short` is 16 bits, both
  little-endian, so `sizeof(RIFF_Header) = 12`, `sizeof(WAVE_Format) = 24` and
  `sizeof(WAVE_Data) = 8`, with no padding.
* Every call that leaves the program (C library, `operator new[]`, OpenAL) is
  recorded, in order, in a log of `Event`s.
* Local variables without an initialiser hold arbitrary bytes, given by `Uninit`.
* A C++ function either returns or leaves by an exception: `Outcome`.
* `operator new[]` succeeds for every non-negative size (memory is not bounded) and
  throws for a negative one; OpenAL calls succeed.
* The precache tables are maps from the index to the record; an index outside the
  declared array is not given a meaning of its own.
-/

namespace AudMix

/-! ## Data model -/

/-- The record `struct AudioBuffer_t`. -/
structure AudioBuffer_t where
  buffer : Nat
  size : Int
  frequency : Int
  format : Int
deriving DecidableEq, Repr

/-- Static storage is zero-initialised: the value of a table slot at program start. -/
def AudioBuffer_t.zero : AudioBuffer_t := ⟨0, 0, 0, 0⟩

def AUDIO_BUFFER_HOUSE_NONE : Nat := 0
def AUDIO_BUFFER_HOUSE_ALIED : Nat := 1
def AUDIO_BUFFER_HOUSE_SOVIET : Nat := 2
def AUDIO_BUFFER_NUMTYPES : Nat := 3

def MAX_PRECACHE_AUDIO : Nat := 512
def MAX_AUDIO_SOURCES : Int := 32

/-! OpenAL enumerators used by the file (values of `AL/al.h`). -/

def AL_FORMAT_MONO8 : Int := 0x1100
def AL_FORMAT_MONO16 : Int := 0x1101
def AL_FORMAT_STEREO8 : Int := 0x1102
def AL_FORMAT_STEREO16 : Int := 0x1103
def AL_BUFFER : Int := 0x1009
def AL_LOOPING : Int := 0x1007
def AL_POSITION : Int := 0x1004

/-- Calls that leave the program, in the order they are made. A source is named by
the handle passed to OpenAL (the content of `audio_sources[i]`). -/
inductive Event where
  | fopen (filename : String) (opened : Bool)
  | fclose (filename : String)
  | newArray (n : Int)
  | alGenBuffers (name : Nat)
  | alBufferData (buffer : Nat) (format : Int) (data : List Nat) (size : Int) (frequency : Int)
  | alSourceStop (source : Nat)
  | alSourcei (source : Nat) (param : Int) (value : Int)
  | alSourcePlay (source : Nat)
  | alcOpenDevice (opened : Bool)
  | alcCreateContext
  | alcMakeContextCurrent (ok : Bool)
  | alGenSources (n : Int)
  | alSource3f (source : Nat) (param : Int)
  | alListener3f (param : Int)
deriving DecidableEq, Repr

/-- Types of the exception objects and handlers that occur in the file: `char*`
(the handler of line 144), `const char*` (the string literals thrown at lines 95,
103, 114 and 119) and `std::bad_array_new_length` (thrown by `new[]`). -/
inductive CxxType where
  | charPtr
  | constCharPtr
  | badArrayNewLength
deriving DecidableEq, Repr

/-- Handler matching of C++ (except.handle) for the types above, handler first: a
handler matches an exception object of the same type, and a handler of pointer type
matches a pointer that converts to it by a qualification conversion. That conversion
adds `const` (`char*` to `const char*`) and never removes it, so `catch (char*)` does
not match a thrown `const char*`, while `catch (const char*)` matches both. -/
def handlerMatches : CxxType → CxxType → Bool
  | .charPtr, .charPtr => true
  | .constCharPtr, .constCharPtr => true
  | .constCharPtr, .charPtr => true
  | .badArrayNewLength, .badArrayNewLength => true
  | _, _ => false

/-- An exception in flight: the type of the exception object and, for the string
literals thrown by the file, the text. -/
structure Thrown where
  type : CxxType
  what : String
deriving DecidableEq, Repr

/-- How a call ends: it returns a value, or an exception leaves it. -/
inductive Outcome (α : Type) where
  | returned (value : α)
  | raised (e : Thrown)
deriving DecidableEq, Repr

/-- A `throw ("...")` expression. The operand is a string literal, whose type is
array of `const char`; the exception object has the operand's type with the array
adjusted to a pointer (expr.throw), that is `const char*`. -/
def throwLiteral (text : String) : Thrown := ⟨.constCharPtr, text⟩

/-! ## The C library stream -/

/-- An open `FILE*` on a regular file: the name, the content and the position. -/
structure FILE where
  name : String
  content : List Nat
  pos : Nat
deriving DecidableEq, Repr

/-- Result of `fread(ptr, size, count, stream)`: the memory at `ptr` afterwards
(`old` is what it held before), the number of complete items read and the stream. A
short read stores the bytes that were available and leaves the rest of `old`. -/
def fread (old : List Nat) (size count : Nat) (stream : FILE) : List Nat × Nat × FILE :=
  let got := (stream.content.drop stream.pos).take (size * count)
  (got ++ old.drop got.length,
   if size = 0 then 0 else got.length / size,
   { stream with pos := stream.pos + got.length })

/-- The call `fseek(stream, offset, SEEK_CUR)` with a non-negative offset. -/
def fseekCur (offset : Nat) (stream : FILE) : FILE :=
  { stream with pos := stream.pos + offset }

/-! ## Field access in the raw records -/

/-- The byte at offset `i` of a record. -/
def byteAt (rec : List Nat) (i : Nat) : Nat := rec.getD i 0

/-- A little-endian unsigned value of `n` bytes at offset `i`. -/
def leNat (rec : List Nat) (i : Nat) : Nat → Nat
  | 0 => 0
  | n + 1 => byteAt rec i % 256 + 256 * leNat rec (i + 1) n

/-- Two's complement reading of a `bits`-bit value. -/
def toSigned (bits : Nat) (v : Nat) : Int :=
  if v % 2 ^ bits < 2 ^ (bits - 1) then (v % 2 ^ bits : Nat) else (v % 2 ^ bits : Nat) - (2 ^ bits : Nat)

/-- A `long` field (32 bits, signed) at offset `i`. -/
def longAt (rec : List Nat) (i : Nat) : Int := toSigned 32 (leNat rec i 4)

/-- A `short` field (16 bits, signed) at offset `i`. -/
def shortAt (rec : List Nat) (i : Nat) : Int := toSigned 16 (leNat rec i 2)

/-- The four `char`s at offset `i` differ from the given four characters, tested as
the source does: `a[0] != c0 || a[1] != c1 || a[2] != c2 || a[3] != c3`. -/
def tagDiffers (rec : List Nat) (i : Nat) (c0 c1 c2 c3 : Char) : Bool :=
  byteAt rec i != c0.toNat || byteAt rec (i + 1) != c1.toNat ||
  byteAt rec (i + 2) != c2.toNat || byteAt rec (i + 3) != c3.toNat

def sizeof_RIFF_Header : Nat := 12
def sizeof_WAVE_Format : Nat := 24
def sizeof_WAVE_Data : Nat := 8
def sizeof_short : Nat := 2

/-- Field `wave_format.subChunkSize`. -/
def subChunkSize (wave_format : List Nat) : Int := longAt wave_format 4
/-- Field `wave_format.numChannels`. -/
def numChannels (wave_format : List Nat) : Int := shortAt wave_format 10
/-- Field `wave_format.sampleRate`. -/
def sampleRate (wave_format : List Nat) : Int := longAt wave_format 12
/-- Field `wave_format.bitsPerSample`. -/
def bitsPerSample (wave_format : List Nat) : Int := shortAt wave_format 22
/-- Field `wave_data.subChunk2Size`. -/
def subChunk2Size (wave_data : List Nat) : Int := longAt wave_data 4

/-! ## The world outside the program -/

/-- The files that exist, by path. -/
abbrev FileSystem := String → Option (List Nat)

/-- What the uninitialised locals of one `loadWavFile` activation hold before they
are read into, and what the fresh `new[]` block holds. -/
structure Uninit where
  riff_header : List Nat
  wave_format : List Nat
  wave_data : List Nat
  data : List Nat

/-- The log of outside calls and the number of buffer names OpenAL has handed out. -/
structure World where
  log : List Event
  generated : Nat
deriving DecidableEq, Repr

/-- Append one call to the log. -/
def World.emit (w : World) (e : Event) : World := { w with log := w.log ++ [e] }

/-- The call `alGenBuffers(1, p)`: OpenAL hands out the next unused non-zero name. -/
def World.genBuffer (w : World) : Nat × World :=
  (w.generated + 1,
   { log := w.log ++ [.alGenBuffers (w.generated + 1)], generated := w.generated + 1 })

/-! ## loadWavFile -/

/-- What `loadWavFile` leaves behind: how it ended, the caller's record (passed by
reference) and the world. -/
structure LoadResult where
  outcome : Outcome Bool
  audioBuffer : AudioBuffer_t
  world : World

/-- The handler `catch (char* error) { if (soundFile != NULL) fclose(soundFile);
return false; }` applied to an exception raised in the try block after the file was
opened. An exception the handler does not match leaves the function. -/
def catchCharPtr (e : Thrown) (soundFile : FILE) (audioBuffer : AudioBuffer_t) (w : World) :
    LoadResult :=
  if handlerMatches .charPtr e.type then
    ⟨.returned false, audioBuffer, w.emit (.fclose soundFile.name)⟩
  else
    ⟨.raised e, audioBuffer, w⟩

/-- The assignment to `*format` (lines 124-135): written for the four supported
pairs, left as it is otherwise. -/
def selectFormat (wave_format : List Nat) (format : Int) : Int :=
  if numChannels wave_format = 1 then
    if bitsPerSample wave_format = 8 then AL_FORMAT_MONO8
    else if bitsPerSample wave_format = 16 then AL_FORMAT_MONO16
    else format
  else if numChannels wave_format = 2 then
    if bitsPerSample wave_format = 8 then AL_FORMAT_STEREO8
    else if bitsPerSample wave_format = 16 then AL_FORMAT_STEREO16
    else format
  else format

/-- The function `loadWavFile(filename, audioBuffer)`. Each `fread` yields the memory
it wrote (`.1`), its return value (`.2.1`) and the stream afterwards (`.2.2`). -/
def loadWavFile (fs : FileSystem) (u : Uninit) (filename : String)
    (audioBuffer : AudioBuffer_t) (w : World) : LoadResult :=
  match fs filename with
  | none => ⟨.returned false, audioBuffer, w.emit (.fopen filename false)⟩
  | some content =>
    let w := w.emit (.fopen filename true)
    let soundFile : FILE := ⟨filename, content, 0⟩
    let read1 := fread u.riff_header sizeof_RIFF_Header 1 soundFile
    let riff_header := read1.1
    let soundFile := read1.2.2
    if tagDiffers riff_header 0 'R' 'I' 'F' 'F' && tagDiffers riff_header 8 'W' 'A' 'V' 'E' then
      catchCharPtr (throwLiteral "Invalid RIFF or WAVE Header") soundFile audioBuffer w
    else
    let read2 := fread u.wave_format sizeof_WAVE_Format 1 soundFile
    let wave_format := read2.1
    let soundFile := read2.2.2
    if tagDiffers wave_format 0 'f' 'm' 't' ' ' then
      catchCharPtr (throwLiteral "Invalid Wave Format") soundFile audioBuffer w
    else
    let soundFile := if subChunkSize wave_format > 16 then fseekCur sizeof_short soundFile
                     else soundFile
    let read3 := fread u.wave_data sizeof_WAVE_Data 1 soundFile
    let wave_data := read3.1
    let soundFile := read3.2.2
    if tagDiffers wave_data 0 'd' 'a' 't' 'a' then
      catchCharPtr (throwLiteral "Invalid data header") soundFile audioBuffer w
    else
    if subChunk2Size wave_data < 0 then
      -- `new unsigned char[n]` with a negative `n`
      catchCharPtr ⟨.badArrayNewLength, "std::bad_array_new_length"⟩ soundFile audioBuffer w
    else
    let w := w.emit (.newArray (subChunk2Size wave_data))
    let read4 := fread (u.data.take (subChunk2Size wave_data).toNat)
                   (subChunk2Size wave_data).toNat 1 soundFile
    let data := read4.1
    let soundFile := read4.2.2
    if read4.2.1 = 0 then
      catchCharPtr (throwLiteral "error loading WAVE data into struct!") soundFile audioBuffer w
    else
    let audioBuffer := { audioBuffer with size := subChunk2Size wave_data }
    let audioBuffer := { audioBuffer with frequency := sampleRate wave_format }
    let audioBuffer := { audioBuffer with format := selectFormat wave_format audioBuffer.format }
    let gen := w.genBuffer
    let audioBuffer := { audioBuffer with buffer := gen.1 }
    let w := gen.2.emit (.alBufferData audioBuffer.buffer audioBuffer.format data
                          audioBuffer.size audioBuffer.frequency)
    let w := w.emit (.fclose soundFile.name)
    ⟨.returned true, audioBuffer, w⟩

/-! ## The header records as `loadWavFile` reads them -/

/-- The locals of `loadWavFile` after the reads of lines 85-108 on a file with the
given content: the three raw records and the stream positioned after the data
sub-record header. -/
structure Headers where
  riff_header : List Nat
  wave_format : List Nat
  wave_data : List Nat
  soundFile : FILE

/-- The reads of lines 85, 97, 105-106 and 108, in order, without the tag checks. -/
def readHeaders (u : Uninit) (filename : String) (content : List Nat) : Headers :=
  let soundFile : FILE := ⟨filename, content, 0⟩
  let read1 := fread u.riff_header sizeof_RIFF_Header 1 soundFile
  let read2 := fread u.wave_format sizeof_WAVE_Format 1 read1.2.2
  let soundFile := if subChunkSize read2.1 > 16 then fseekCur sizeof_short read2.2.2
                   else read2.2.2
  let read3 := fread u.wave_data sizeof_WAVE_Data 1 soundFile
  ⟨read1.1, read2.1, read3.1, read3.2.2⟩

/-- The outer header passes the test of lines 87-95. -/
def Headers.riffAccepted (h : Headers) : Bool :=
  !(tagDiffers h.riff_header 0 'R' 'I' 'F' 'F' && tagDiffers h.riff_header 8 'W' 'A' 'V' 'E')

/-- The format sub-record passes the test of lines 99-103. -/
def Headers.formatAccepted (h : Headers) : Bool := !tagDiffers h.wave_format 0 'f' 'm' 't' ' '

/-- The data sub-record passes the test of lines 110-114. -/
def Headers.dataAccepted (h : Headers) : Bool := !tagDiffers h.wave_data 0 'd' 'a' 't' 'a'

/-- Bytes of the file that lie after the data sub-record header. -/
def Headers.remaining (h : Headers) : Nat := h.soundFile.content.length - h.soundFile.pos

/-! ## Well-formed containers -/

/-- The `n` little-endian bytes of `v`. -/
def leBytes : Nat → Nat → List Nat
  | 0, _ => []
  | n + 1, v => v % 256 :: leBytes n (v / 256)

/-- The bytes of a four-character tag. -/
def tagBytes (c0 c1 c2 c3 : Char) : List Nat := [c0.toNat, c1.toNat, c2.toNat, c3.toNat]

/-- The outer header: group tag, size, subtype tag. -/
def riffRecord (chunkSize : Nat) : List Nat :=
  tagBytes 'R' 'I' 'F' 'F' ++ leBytes 4 chunkSize ++ tagBytes 'W' 'A' 'V' 'E'

/-- The format sub-record with declared size 16. -/
def formatRecord (audioFormat channels rate byteRate blockAlign bits : Nat) : List Nat :=
  tagBytes 'f' 'm' 't' ' ' ++ leBytes 4 16 ++ leBytes 2 audioFormat ++ leBytes 2 channels ++
  leBytes 4 rate ++ leBytes 4 byteRate ++ leBytes 2 blockAlign ++ leBytes 2 bits

/-- The data sub-record header with declared size `declared`. -/
def dataRecord (declared : Nat) : List Nat := tagBytes 'd' 'a' 't' 'a' ++ leBytes 4 declared

/-- A container laid out as in the file format: outer header, format sub-record of
declared size 16, data sub-record header, then `tail` (the payload and whatever
follows it). -/
def wavFile (chunkSize audioFormat channels rate byteRate blockAlign bits declared : Nat)
    (tail : List Nat) : List Nat :=
  riffRecord chunkSize ++
    (formatRecord audioFormat channels rate byteRate blockAlign bits ++
      (dataRecord declared ++ tail))

/-- The format tag the four supported (channels, bits) pairs stand for. -/
def formatOf (channels bits : Nat) : Int :=
  if channels = 1 then (if bits = 8 then AL_FORMAT_MONO8 else AL_FORMAT_MONO16)
  else (if bits = 8 then AL_FORMAT_STEREO8 else AL_FORMAT_STEREO16)

/-! ## Program state -/

/-- A slot of one of the three precache tables. -/
inductive Slot where
  | effect (house : Nat) (id : Int)
  | speech (id : Int)
  | music (id : Int)
deriving DecidableEq, Repr

/-- One activation of `loadWavFile` made by `AudMix_Init`: the table slot passed by
reference, the path and how the call ended. -/
structure LoadCall where
  slot : Slot
  filename : String
  outcome : Outcome Bool
deriving DecidableEq, Repr

/-- The globals of the file and the world. `loads` is instrumentation, not a variable
of the program: the `loadWavFile` activations so far, in order. -/
structure State where
  device : Bool
  context : Bool
  precacheAudioTable : Nat → Int → AudioBuffer_t
  speechPrecacheAudioTable : Int → AudioBuffer_t
  musicPrecacheAudioTable : Int → AudioBuffer_t
  currentMusicPlaying : Int
  currentAudioTSource : Int
  audio_sources : Int → Nat
  world : World
  loads : List LoadCall

/-- The state at program start: static storage zeroed, `currentMusicPlaying = -1`,
`currentAudioTSource = 0`, nothing logged. -/
def State.initial : State where
  device := false
  context := false
  precacheAudioTable := fun _ _ => AudioBuffer_t.zero
  speechPrecacheAudioTable := fun _ => AudioBuffer_t.zero
  musicPrecacheAudioTable := fun _ => AudioBuffer_t.zero
  currentMusicPlaying := -1
  currentAudioTSource := 0
  audio_sources := fun _ => 0
  world := ⟨[], 0⟩
  loads := []

/-- Record one outside call. -/
def State.emit (s : State) (e : Event) : State := { s with world := s.world.emit e }

/-- The record held by a slot. -/
def State.get (s : State) : Slot → AudioBuffer_t
  | .effect house id => s.precacheAudioTable house id
  | .speech id => s.speechPrecacheAudioTable id
  | .music id => s.musicPrecacheAudioTable id

/-- Store a record in a slot. -/
def State.set (s : State) (slot : Slot) (v : AudioBuffer_t) : State :=
  match slot with
  | .effect house id =>
    { s with precacheAudioTable := fun h i => if h = house ∧ i = id then v else s.precacheAudioTable h i }
  | .speech id =>
    { s with speechPrecacheAudioTable := fun i => if i = id then v else s.speechPrecacheAudioTable i }
  | .music id =>
    { s with musicPrecacheAudioTable := fun i => if i = id then v else s.musicPrecacheAudioTable i }

/-- The implicit conversion of an `ALuint` buffer name to the `ALint` argument of
`alSourcei`. -/
def asALint (name : Nat) : Int := toSigned 32 name

/-- What the file takes from the rest of the game and from the machine: the files on
disk, the content of uninitialised locals (per path), the ID ranges and name tables
of `function.h`, the sentinel `VOC_NONE`, whether the device opens, whether a context
is created and becomes current, and the source names `alGenSources` writes. -/
structure Env where
  files : FileSystem
  uninit : String → Uninit
  VOC_COUNT : Nat
  VOX_COUNT : Nat
  THEME_COUNT : Nat
  VOC_NONE : Int
  GetEffectFileName : Int → String
  GetSpeechFileName : Int → String
  GetThemeMusicFileName : Int → String
  deviceOpens : Bool
  contextCreated : Bool
  contextCurrent : Bool
  sourceNames : Int → Nat

/-! ## Playback -/

/-- The function `AudMix_PlayMusic(musicId)`. -/
def AudMix_PlayMusic (musicId : Int) (s : State) : State :=
  let s := if s.currentMusicPlaying ≠ -1 then
             s.emit (.alSourceStop (s.audio_sources (MAX_AUDIO_SOURCES - 1)))
           else s
  let s := s.emit (.alSourcei (s.audio_sources (MAX_AUDIO_SOURCES - 1)) AL_BUFFER
                    (asALint (s.musicPrecacheAudioTable musicId).buffer))
  let s := s.emit (.alSourcei (s.audio_sources (MAX_AUDIO_SOURCES - 1)) AL_LOOPING 1)
  let s := s.emit (.alSourcePlay (s.audio_sources (MAX_AUDIO_SOURCES - 1)))
  { s with currentMusicPlaying := musicId }

/-- The function `PlayAudio(buffer)`. -/
def PlayAudio (buffer : AudioBuffer_t) (s : State) : State :=
  let s := if s.currentAudioTSource ≥ MAX_AUDIO_SOURCES - 1 then
             { s with currentAudioTSource := 0 }
           else s
  let s := s.emit (.alSourcei (s.audio_sources s.currentAudioTSource) AL_BUFFER
                    (asALint buffer.buffer))
  let s := s.emit (.alSourcePlay (s.audio_sources s.currentAudioTSource))
  { s with currentAudioTSource := s.currentAudioTSource + 1 }

set_option linter.unusedVariables false in
/-- The function `On_Sound_Effect(sound_index, variation, coord, house)`. -/
def On_Sound_Effect (env : Env) (sound_index variation coord house : Int) (s : State) : State :=
  let voc := sound_index
  if voc = env.VOC_NONE then s
  else PlayAudio (s.precacheAudioTable AUDIO_BUFFER_HOUSE_NONE sound_index) s

/-- The function `On_Speech(speech_index, house)`; `houseIsNull` is `house == NULL`. -/
def On_Speech (speech_index : Int) (houseIsNull : Bool) (s : State) : State :=
  if houseIsNull then PlayAudio (s.speechPrecacheAudioTable speech_index) s
  else s

/-! ## Precache -/

/-- A call `loadWavFile(filename, slot)` from `AudMix_Init`: the slot is passed by
reference, the world is threaded through and the call is appended to `loads`. -/
def loadInto (env : Env) (filename : String) (slot : Slot) (s : State) : Outcome Bool × State :=
  let r := loadWavFile env.files (env.uninit filename) filename (s.get slot) s.world
  (r.outcome,
   { s.set slot r.audioBuffer with
       world := r.world
       loads := s.loads ++ [⟨slot, filename, r.outcome⟩] })

/-- A loop `for (int i = 0; i < n; i++) body`, here with `k` iterations left and the
counter at `i`. An exception raised by the body leaves the loop. -/
def forLoop (body : Int → State → Outcome Unit × State) : Nat → Int → State → Outcome Unit × State
  | 0, _, s => (.returned (), s)
  | k + 1, i, s =>
    match body i s with
    | (.returned _, s) => forLoop body k (i + 1) s
    | (.raised e, s) => (.raised e, s)

/-- Body of the loop of lines 196-213 for effect ID `i`. -/
def effectBody (env : Env) (i : Int) (s : State) : Outcome Unit × State :=
  match loadInto env ("sound/" ++ env.GetEffectFileName i ++ ".wav")
      (.effect AUDIO_BUFFER_HOUSE_NONE i) s with
  | (.raised e, s) => (.raised e, s)
  | (.returned true, s) => (.returned (), s)
  | (.returned false, s) =>
    match loadInto env ("sound/alied/" ++ env.GetEffectFileName i ++ ".wav")
        (.effect AUDIO_BUFFER_HOUSE_ALIED i) s with
    | (.raised e, s) => (.raised e, s)
    | (.returned _, s) =>
      match loadInto env ("sound/russian/" ++ env.GetEffectFileName i ++ ".wav")
          (.effect AUDIO_BUFFER_HOUSE_SOVIET i) s with
      | (.raised e, s) => (.raised e, s)
      | (.returned _, s) => (.returned (), s)

/-- Body of the loop of lines 216-223 for speech ID `i`. -/
def speechBody (env : Env) (i : Int) (s : State) : Outcome Unit × State :=
  match loadInto env ("sound/speech/" ++ env.GetSpeechFileName i ++ ".wav") (.speech i) s with
  | (.raised e, s) => (.raised e, s)
  | (.returned _, s) => (.returned (), s)

/-- Body of the loop of lines 226-233 for music ID `i`. -/
def musicBody (env : Env) (i : Int) (s : State) : Outcome Unit × State :=
  match loadInto env ("sound/music/" ++ env.GetThemeMusicFileName i ++ ".wav") (.music i) s with
  | (.raised e, s) => (.raised e, s)
  | (.returned _, s) => (.returned (), s)

/-- The effects pass, lines 196-213. -/
def effectsPass (env : Env) (s : State) : Outcome Unit × State :=
  forLoop (effectBody env) env.VOC_COUNT 0 s

/-- The speech pass, lines 216-223. -/
def speechPass (env : Env) (s : State) : Outcome Unit × State :=
  forLoop (speechBody env) env.VOX_COUNT 0 s

/-- The music pass, lines 226-233. -/
def musicPass (env : Env) (s : State) : Outcome Unit × State :=
  forLoop (musicBody env) env.THEME_COUNT 0 s

/-- Body of the loop of lines 237-238. -/
def positionBody (i : Int) (s : State) : Outcome Unit × State :=
  (.returned (), s.emit (.alSource3f (s.audio_sources i) AL_POSITION))

/-- Lines 236-240: the voices are allocated and placed, then the listener. -/
def allocateSources (env : Env) (s : State) : Outcome Unit × State :=
  let s := { s with audio_sources := fun i =>
               if 0 ≤ i ∧ i < MAX_AUDIO_SOURCES then env.sourceNames i else s.audio_sources i }
  let s := s.emit (.alGenSources MAX_AUDIO_SOURCES)
  match forLoop positionBody MAX_AUDIO_SOURCES.toNat 0 s with
  | (.raised e, s) => (.raised e, s)
  | (.returned _, s) => (.returned (), s.emit (.alListener3f AL_POSITION))

/-- Lines 195-240: the three precache passes and the allocation of the voices. -/
def precacheAndAllocate (env : Env) (s : State) : Outcome Unit × State :=
  match effectsPass env s with
  | (.raised e, s) => (.raised e, s)
  | (.returned _, s) =>
    match speechPass env s with
    | (.raised e, s) => (.raised e, s)
    | (.returned _, s) =>
      match musicPass env s with
      | (.raised e, s) => (.raised e, s)
      | (.returned _, s) => allocateSources env s

/-- The function `AudMix_Init()`. -/
def AudMix_Init (env : Env) (s : State) : Outcome Unit × State :=
  let s := { s.emit (.alcOpenDevice env.deviceOpens) with device := env.deviceOpens }
  if !s.device then (.returned (), s)
  else
  let s := { s.emit .alcCreateContext with context := env.contextCreated }
  let s := s.emit (.alcMakeContextCurrent env.contextCurrent)
  if !env.contextCurrent then (.returned (), s)
  else precacheAndAllocate env s

/-! ## Concrete inputs used below -/

/-- The calls that create or fill a device buffer. -/
def isBufferCall : Event → Bool
  | .alGenBuffers _ => true
  | .alBufferData _ _ _ _ _ => true
  | _ => false

/-- Uninitialised memory that happens to hold nothing. -/
def noGarbage : Uninit := ⟨[], [], [], []⟩

/-- A valid mono, 8-bit, 8000 Hz container with 4 payload bytes. -/
def bleepWav : List Nat := wavFile 40 1 1 8000 8000 1 8 4 [128, 255, 128, 0]

/-- A sound directory that holds only `sound/bleep.wav`. -/
def bleepFiles : FileSystem := fun path => if path = "sound/bleep.wav" then some bleepWav else none

/-- A container whose data sub-record declares 2^31 bytes and is followed by as many. -/
def longWav : List Nat :=
  wavFile (36 + 2 ^ 31) 1 1 8000 8000 1 8 (2 ^ 31) (List.replicate (2 ^ 31) 128)

/-- A file of twelve zero bytes: neither the group tag nor the subtype tag is right. -/
def zeroFile : List Nat := List.replicate 12 0

/-- A container like `bleepWav` whose data sub-record tag reads "dat!". -/
def badDataTagWav : List Nat :=
  riffRecord 40 ++ (formatRecord 1 1 8000 8000 1 8 ++
    (tagBytes 'd' 'a' 't' '!' ++ leBytes 4 4 ++ [128, 255, 128, 0]))

/-- A container like `bleepWav` cut after two of its four payload bytes. -/
def truncatedWav : List Nat := wavFile 40 1 1 8000 8000 1 8 4 [128, 255]

/-- The first `k` of a run of consecutive `PlayAudio` calls, the `j`-th (from 0) with
the buffer `bufs j`. -/
def playMany (bufs : Nat → AudioBuffer_t) : Nat → State → State
  | 0, s => s
  | k + 1, s => PlayAudio (bufs k) (playMany bufs k s)

/-- The index into `audio_sources` that the next `PlayAudio` call uses (lines 244-245). -/
def nextTransient (s : State) : Int :=
  if s.currentAudioTSource ≥ MAX_AUDIO_SOURCES - 1 then 0 else s.currentAudioTSource

/-- A machine with one effect, one speech line and one track, and no file at all. -/
def silentEnv : Env where
  files := fun _ => none
  uninit := fun _ => noGarbage
  VOC_COUNT := 1
  VOX_COUNT := 1
  THEME_COUNT := 1
  VOC_NONE := -1
  GetEffectFileName := fun _ => "bleep"
  GetSpeechFileName := fun _ => "ready"
  GetThemeMusicFileName := fun _ => "march"
  deviceOpens := true
  contextCreated := true
  contextCurrent := true
  sourceNames := fun i => i.toNat + 1

/-- The machine of `silentEnv` with the files of `bleepFiles`. -/
def bleepEnv : Env := { silentEnv with files := bleepFiles }

/-- The ID a slot belongs to. -/
def Slot.id : Slot → Int
  | .effect _ id => id
  | .speech id => id
  | .music id => id

/-- The `loadWavFile` activations made between two states of one run. -/
def newLoads (before after : State) : List LoadCall := after.loads.drop before.loads.length

/-- The activations among `calls` that were made for the ID `i`. -/
def callsFor (i : Int) (calls : List LoadCall) : List LoadCall :=
  calls.filter (fun c => decide (c.slot.id = i))

/-- The machine of `silentEnv` where `sound/alied/bleep.wav` exists and is twelve
zero bytes. -/
def corruptAlliedEnv : Env :=
  { silentEnv with files := fun path => if path = "sound/alied/bleep.wav" then some zeroFile else none }

/-- The machine of `silentEnv` with two effects, where `sound/bleep.wav` exists and
is twelve zero bytes. -/
def corruptNeutralEnv : Env :=
  { silentEnv with
      VOC_COUNT := 2
      files := fun path => if path = "sound/bleep.wav" then some zeroFile else none }

/-! ## Runs of playback calls -/

/-- One call of a playback entry point of the file, with its arguments. -/
inductive Trigger where
  | playAudio (buffer : AudioBuffer_t)
  | soundEffect (sound_index variation coord house : Int)
  | speech (speech_index : Int) (houseIsNull : Bool)
  | playMusic (musicId : Int)

/-- The call a trigger stands for. -/
def Trigger.apply (env : Env) : Trigger → State → State
  | .playAudio buffer, s => PlayAudio buffer s
  | .soundEffect sound_index variation coord house, s =>
    On_Sound_Effect env sound_index variation coord house s
  | .speech speech_index houseIsNull, s => On_Speech speech_index houseIsNull s
  | .playMusic musicId, s => AudMix_PlayMusic musicId s

/-- The calls of `AudMix_PlayMusic` among the triggers. -/
def Trigger.isMusic : Trigger → Bool
  | .playMusic _ => true
  | _ => false

/-- The triggers of a list applied one after the other, first to last. -/
def runTriggers (env : Env) : List Trigger → State → State
  | [], s => s
  | t :: ts, s => runTriggers env ts (t.apply env s)

/-- The source handle an OpenAL source call is made on. -/
def Event.source : Event → Option Nat
  | .alSourceStop source => some source
  | .alSourcei source _ _ => some source
  | .alSourcePlay source => some source
  | .alSource3f source _ => some source
  | _ => none

/-! ## Host memory -/

/-- The calls of `new[]`. -/
def isNewArray : Event → Bool
  | .newArray _ => true
  | _ => false

/-- The host buffers allocated and not released after the calls of a log. The file
contains no `delete[]` (and no other release), so no call of the log gives a block
back: the count is that of the `new[]` calls. -/
def hostBuffersLive (log : List Event) : Nat := (log.filter isNewArray).length

/-- A container like `bleepWav` whose data sub-record declares 0 bytes, followed by
three bytes. -/
def emptyPayloadWav : List Nat := wavFile 36 1 1 8000 8000 1 8 0 [128, 255, 128]

/-! ## Containers with other outer tags -/

/-- A container laid out like `wavFile` whose group tag and subtype tag are the given
byte sequences. -/
def wavFileWith (group subtype : List Nat)
    (chunkSize audioFormat channels rate byteRate blockAlign bits declared : Nat)
    (tail : List Nat) : List Nat :=
  (group ++ leBytes 4 chunkSize ++ subtype) ++
    (formatRecord audioFormat channels rate byteRate blockAlign bits ++
      (dataRecord declared ++ tail))

/-- A container like `bleepWav` with the group tag "RIFX" and the subtype "WAVE". -/
def wrongGroupWav : List Nat :=
  wavFileWith (tagBytes 'R' 'I' 'F' 'X') (tagBytes 'W' 'A' 'V' 'E') 40 1 1 8000 8000 1 8 4
    [128, 255, 128, 0]

/-- A container like `bleepWav` with the group tag "RIFF" and the subtype "AVI ". -/
def wrongSubtypeWav : List Nat :=
  wavFileWith (tagBytes 'R' 'I' 'F' 'F') (tagBytes 'A' 'V' 'I' ' ') 40 1 1 8000 8000 1 8 4
    [128, 255, 128, 0]

/-- A container like `bleepWav` that declares one channel of 24 bits per sample. -/
def mono24Wav : List Nat := wavFile 40 1 1 8000 24000 3 24 3 [128, 255, 128]

/-! ## Where the data sub-record header is read -/

/-- The stream position at which the `fread` of line 108 starts: the position after
the reads of lines 85 and 97 and the `fseek` of lines 105-106. -/
def dataHeaderOffset (u : Uninit) (filename : String) (content : List Nat) : Nat :=
  let soundFile : FILE := ⟨filename, content, 0⟩
  let read1 := fread u.riff_header sizeof_RIFF_Header 1 soundFile
  let read2 := fread u.wave_format sizeof_WAVE_Format 1 read1.2.2
  (if subChunkSize read2.1 > 16 then fseekCur sizeof_short read2.2.2 else read2.2.2).pos

/-- A file of 16 bytes: "RIFF", a size, "WAVE", "fmt ", and nothing more. -/
def sixteenBytes : List Nat := riffRecord 8 ++ tagBytes 'f' 'm' 't' ' '

/-- A container like `bleepWav` whose format sub-record declares 18 bytes and carries
a two-byte extension. -/
def extendedWav : List Nat :=
  riffRecord 42 ++
    (tagBytes 'f' 'm' 't' ' ' ++ leBytes 4 18 ++ leBytes 2 1 ++ leBytes 2 1 ++
      leBytes 4 8000 ++ leBytes 4 8000 ++ leBytes 2 1 ++ leBytes 2 8 ++ [0, 0] ++
      (dataRecord 4 ++ [128, 255, 128, 0]))

/-- A container like `extendedWav` whose format sub-record declares 40 bytes and
carries a 24-byte extension. -/
def extensibleWav : List Nat :=
  riffRecord 64 ++
    (tagBytes 'f' 'm' 't' ' ' ++ leBytes 4 40 ++ leBytes 2 65534 ++ leBytes 2 1 ++
      leBytes 4 8000 ++ leBytes 4 8000 ++ leBytes 2 1 ++ leBytes 2 8 ++ List.replicate 24 0 ++
      (dataRecord 4 ++ [128, 255, 128, 0]))

/-! ## Fields the parser never looks at -/

/-- The byte offsets of the outer size field (4..7), the format code (20..21), the
byte rate (28..31) and the block align (32..33). -/
def ignoredOffset (i : Nat) : Bool :=
  (4 ≤ i && i < 8) || (20 ≤ i && i < 22) || (28 ≤ i && i < 34)

/-- Two files of the same length that are equal at every offset outside those four
fields. -/
def sameButIgnored (f g : List Nat) : Bool :=
  f.length == g.length &&
    (List.range f.length).all (fun i => ignoredOffset i || byteAt f i == byteAt g i)

/-- A container like `bleepWav` with another outer size, the format code 85 (not
PCM), another byte rate and another block align. -/
def notPcmWav : List Nat := wavFile 99999 85 1 8000 12345 7 8 4 [128, 255, 128, 0]

end AudMix

/-! # Properties -/

namespace AudMix

/-! ## Arithmetic and stream lemmas -/

theorem toSigned32_small (v : Nat) (h : v < 2 ^ 31) : toSigned 32 v = v := by
  unfold toSigned
  have h1 : v % 2 ^ 32 = v := Nat.mod_eq_of_lt (by omega)
  rw [h1]
  simp only [show (32 - 1 : Nat) = 31 from rfl]
  rw [if_pos h]

theorem fread_exact (old a rest : List Nat) (name : String) (content : List Nat) (pos size : Nat)
    (h : content.drop pos = a ++ rest) (ha : a.length = size) (hs : 0 < size) :
    fread old size 1 ⟨name, content, pos⟩ = (a ++ old.drop size, 1, ⟨name, content, pos + size⟩) := by
  unfold fread
  simp only [h, Nat.mul_one]
  have : List.take size (a ++ rest) = a := by
    rw [← ha]; exact List.take_left' rfl
  rw [this, ha]
  have h0 : size ≠ 0 := by omega
  simp [h0, Nat.div_self hs]


theorem fread_items (old : List Nat) (size : Nat) (f : FILE) :
    (fread old size 1 f).2.1 = 0 ↔ (size = 0 ∨ f.content.length - f.pos < size) := by
  unfold fread
  simp only [Nat.mul_one, List.length_take, List.length_drop]
  by_cases h0 : size = 0
  · simp [h0]
  · simp only [h0, if_false, false_or]
    have hpos : 0 < size := Nat.pos_of_ne_zero h0
    rw [Nat.div_eq_zero_iff hpos]
    omega

theorem fread_data (old : List Nat) (size : Nat) (f : FILE) (hold : old.length ≤ size)
    (h : ¬ (size = 0 ∨ f.content.length - f.pos < size)) :
    (fread old size 1 f).1 = (f.content.drop f.pos).take size := by
  unfold fread
  simp only [Nat.mul_one, List.length_take, List.length_drop]
  have : old.drop (min size (f.content.length - f.pos)) = [] := by
    apply List.drop_eq_nil_of_le
    omega
  rw [this, List.append_nil]

theorem fread_name (old : List Nat) (size count : Nat) (f : FILE) :
    (fread old size count f).2.2.name = f.name := rfl

theorem fread_content (old : List Nat) (size count : Nat) (f : FILE) :
    (fread old size count f).2.2.content = f.content := rfl

/-- The function `loadWavFile` on an existing file, written over `readHeaders`: the
five ways it ends. -/
theorem loadWavFile_eq (fs : FileSystem) (u : Uninit) (filename : String)
    (audioBuffer : AudioBuffer_t) (w : World) (content : List Nat) (hfile : fs filename = some content) :
    loadWavFile fs u filename audioBuffer w =
    let h := readHeaders u filename content
    let w1 := w.emit (.fopen filename true)
    if !h.riffAccepted then
      ⟨.raised (throwLiteral "Invalid RIFF or WAVE Header"), audioBuffer, w1⟩
    else if !h.formatAccepted then
      ⟨.raised (throwLiteral "Invalid Wave Format"), audioBuffer, w1⟩
    else if !h.dataAccepted then
      ⟨.raised (throwLiteral "Invalid data header"), audioBuffer, w1⟩
    else if subChunk2Size h.wave_data < 0 then
      ⟨.raised ⟨.badArrayNewLength, "std::bad_array_new_length"⟩, audioBuffer, w1⟩
    else if subChunk2Size h.wave_data = 0 ∨ h.remaining < (subChunk2Size h.wave_data).toNat then
      ⟨.raised (throwLiteral "error loading WAVE data into struct!"), audioBuffer,
        w1.emit (.newArray (subChunk2Size h.wave_data))⟩
    else
      ⟨.returned true,
       ⟨w.generated + 1, subChunk2Size h.wave_data, sampleRate h.wave_format,
         selectFormat h.wave_format audioBuffer.format⟩,
       ⟨w.log ++ [.fopen filename true, .newArray (subChunk2Size h.wave_data),
          .alGenBuffers (w.generated + 1),
          .alBufferData (w.generated + 1) (selectFormat h.wave_format audioBuffer.format)
            ((content.drop h.soundFile.pos).take (subChunk2Size h.wave_data).toNat)
            (subChunk2Size h.wave_data) (sampleRate h.wave_format),
          .fclose filename], w.generated + 1⟩⟩ := by
  unfold loadWavFile
  rw [hfile]
  dsimp only [readHeaders, Headers.riffAccepted, Headers.formatAccepted, Headers.dataAccepted,
    Headers.remaining]
  generalize hr1 : fread u.riff_header sizeof_RIFF_Header 1 ⟨filename, content, 0⟩ = r1
  generalize hr2 : fread u.wave_format sizeof_WAVE_Format 1 r1.2.2 = r2
  generalize hsf : (if subChunkSize r2.1 > 16 then fseekCur sizeof_short r2.2.2 else r2.2.2) = sf
  generalize hr3 : fread u.wave_data sizeof_WAVE_Data 1 sf = r3
  have hn : r3.2.2.name = filename := by
    rw [← hr3, fread_name, ← hsf]
    have : r2.2.2.name = filename := by rw [← hr2, fread_name, ← hr1, fread_name]
    split <;> simpa [fseekCur] using this
  have hc : r3.2.2.content = content := by
    rw [← hr3, fread_content, ← hsf]
    have : r2.2.2.content = content := by rw [← hr2, fread_content, ← hr1, fread_content]
    split <;> simpa [fseekCur] using this
  have hitems := fread_items (List.take (subChunk2Size r3.1).toNat u.data) (subChunk2Size r3.1).toNat r3.2.2
  have hdata := fread_data (List.take (subChunk2Size r3.1).toNat u.data) (subChunk2Size r3.1).toNat r3.2.2
    (by simp [List.length_take])
  have hn4 := fread_name (List.take (subChunk2Size r3.1).toNat u.data) (subChunk2Size r3.1).toNat 1 r3.2.2
  generalize fread (List.take (subChunk2Size r3.1).toNat u.data) (subChunk2Size r3.1).toNat 1 r3.2.2 = r4
    at hitems hdata hn4 ⊢
  rw [hc] at hitems hdata
  rw [hn] at hn4
  generalize subChunk2Size r3.1 = n at hitems hdata ⊢
  by_cases h1 : (tagDiffers r1.1 0 'R' 'I' 'F' 'F' && tagDiffers r1.1 8 'W' 'A' 'V' 'E') = true
  · simp [h1, catchCharPtr, throwLiteral, handlerMatches]
  by_cases h2 : tagDiffers r2.1 0 'f' 'm' 't' ' ' = true
  · simp [h1, h2, catchCharPtr, throwLiteral, handlerMatches]
  by_cases h3 : tagDiffers r3.1 0 'd' 'a' 't' 'a' = true
  · simp [h1, h2, h3, catchCharPtr, throwLiteral, handlerMatches]
  by_cases h4 : n < 0
  · simp [h1, h2, h3, h4, catchCharPtr, throwLiteral, handlerMatches]
  have hz : n.toNat = 0 ↔ n = 0 := by omega
  rw [hz] at hitems hdata
  by_cases h5 : r4.2.1 = 0
  · have h5b := hitems.mp h5
    have h5c : n = 0 ∨ ((r3.2.2.content.length - r3.2.2.pos : Nat) : Int) < n := by
      rw [hc]; omega
    simp [h1, h2, h3, h4, h5, catchCharPtr, throwLiteral, handlerMatches]
    rw [if_pos h5c]
  · have h5b : ¬ (n = 0 ∨ content.length - r3.2.2.pos < n.toNat) := fun h => h5 (hitems.mpr h)
    have h5c : ¬ (n = 0 ∨ ((r3.2.2.content.length - r3.2.2.pos : Nat) : Int) < n) := by
      rw [hc]; omega
    simp [h1, h2, h3, h4, h5, hdata h5b, hn4, World.emit, World.genBuffer]
    rw [if_neg h5c]


theorem byteAt_append_right (pre l : List Nat) (k : Nat) :
    byteAt (pre ++ l) (pre.length + k) = byteAt l k := by
  induction pre with
  | nil => simp
  | cons x xs ih =>
    have : (x :: xs).length + k = (xs.length + k) + 1 := by simp; omega
    rw [this]
    simpa [byteAt] using ih

theorem leNat_append_right (pre l : List Nat) (k n : Nat) :
    leNat (pre ++ l) (pre.length + k) n = leNat l k n := by
  induction n generalizing k with
  | zero => rfl
  | succ n ih =>
    simp only [leNat]
    rw [byteAt_append_right, Nat.add_assoc, ih]

theorem leNat4_lt (rec : List Nat) (i : Nat) : leNat rec i 4 < 2 ^ 32 := by
  simp only [leNat]
  omega

theorem leNat4_cons (b0 b1 b2 b3 : Nat) (pre post : List Nat) (i : Nat) (hi : pre.length = i) :
    leNat (pre ++ b0 :: b1 :: b2 :: b3 :: post) i 4 =
      b0 % 256 + 256 * (b1 % 256 + 256 * (b2 % 256 + 256 * (b3 % 256))) := by
  subst hi
  have := leNat_append_right pre (b0 :: b1 :: b2 :: b3 :: post) 0 4
  rw [Nat.add_zero] at this
  rw [this]
  simp [leNat, byteAt]

theorem leNat2_cons (b0 b1 : Nat) (pre post : List Nat) (i : Nat) (hi : pre.length = i) :
    leNat (pre ++ b0 :: b1 :: post) i 2 = b0 % 256 + 256 * (b1 % 256) := by
  subst hi
  have := leNat_append_right pre (b0 :: b1 :: post) 0 2
  rw [Nat.add_zero] at this
  rw [this]
  simp [leNat, byteAt]

theorem leNat_leBytes4 (v : Nat) (pre post : List Nat) (i : Nat) (hi : pre.length = i) :
    leNat (pre ++ (leBytes 4 v ++ post)) i 4 = v % 2 ^ 32 := by
  simp only [leBytes, List.cons_append, List.nil_append]
  rw [leNat4_cons _ _ _ _ _ _ _ hi]
  omega

theorem leNat_leBytes2 (v : Nat) (pre post : List Nat) (i : Nat) (hi : pre.length = i) :
    leNat (pre ++ (leBytes 2 v ++ post)) i 2 = v % 2 ^ 16 := by
  simp only [leBytes, List.cons_append, List.nil_append]
  rw [leNat2_cons _ _ _ _ _ hi]
  omega

theorem formatRecord_length (a c r br ba bits : Nat) : (formatRecord a c r br ba bits).length = 24 := by
  simp [formatRecord, tagBytes, leBytes]

theorem subChunkSize_formatRecord (a c r br ba bits : Nat) (g : List Nat) :
    subChunkSize (formatRecord a c r br ba bits ++ g) = 16 := by
  unfold subChunkSize longAt formatRecord
  simp only [List.append_assoc]
  rw [leNat_leBytes4 16 (tagBytes 'f' 'm' 't' ' ') _ 4 rfl]
  decide

theorem numChannels_formatRecord (a c r br ba bits : Nat) (g : List Nat) :
    numChannels (formatRecord a c r br ba bits ++ g) = toSigned 16 c := by
  unfold numChannels shortAt formatRecord
  have := leNat_leBytes2 c (tagBytes 'f' 'm' 't' ' ' ++ leBytes 4 16 ++ leBytes 2 a)
    (leBytes 4 r ++ leBytes 4 br ++ leBytes 2 ba ++ leBytes 2 bits ++ g) 10 rfl
  simp only [List.append_assoc] at this ⊢
  rw [this]
  simp [toSigned]


theorem sampleRate_formatRecord (a c r br ba bits : Nat) (g : List Nat) :
    sampleRate (formatRecord a c r br ba bits ++ g) = toSigned 32 r := by
  unfold sampleRate longAt formatRecord
  have := leNat_leBytes4 r (tagBytes 'f' 'm' 't' ' ' ++ leBytes 4 16 ++ leBytes 2 a ++ leBytes 2 c)
    (leBytes 4 br ++ leBytes 2 ba ++ leBytes 2 bits ++ g) 12 rfl
  simp only [List.append_assoc] at this ⊢
  rw [this]
  simp [toSigned]

theorem bitsPerSample_formatRecord (a c r br ba bits : Nat) (g : List Nat) :
    bitsPerSample (formatRecord a c r br ba bits ++ g) = toSigned 16 bits := by
  unfold bitsPerSample shortAt formatRecord
  have := leNat_leBytes2 bits (tagBytes 'f' 'm' 't' ' ' ++ leBytes 4 16 ++ leBytes 2 a ++ leBytes 2 c
    ++ leBytes 4 r ++ leBytes 4 br ++ leBytes 2 ba) g 22 rfl
  simp only [List.append_assoc] at this ⊢
  rw [this]
  simp [toSigned]

theorem tagDiffers_formatRecord (a c r br ba bits : Nat) (g : List Nat) :
    tagDiffers (formatRecord a c r br ba bits ++ g) 0 'f' 'm' 't' ' ' = false := by
  simp [formatRecord, tagBytes, tagDiffers, byteAt]

theorem riffRecord_length (cs : Nat) : (riffRecord cs).length = 12 := by
  simp [riffRecord, tagBytes, leBytes]

theorem tagDiffers_riffRecord (cs : Nat) (g : List Nat) :
    tagDiffers (riffRecord cs ++ g) 0 'R' 'I' 'F' 'F' = false := by
  simp [riffRecord, tagBytes, tagDiffers, byteAt]

theorem dataRecord_length (n : Nat) : (dataRecord n).length = 8 := by
  simp [dataRecord, tagBytes, leBytes]

theorem tagDiffers_dataRecord (n : Nat) (g : List Nat) :
    tagDiffers (dataRecord n ++ g) 0 'd' 'a' 't' 'a' = false := by
  simp [dataRecord, tagBytes, tagDiffers, byteAt]

theorem subChunk2Size_dataRecord (n : Nat) (g : List Nat) :
    subChunk2Size (dataRecord n ++ g) = toSigned 32 n := by
  unfold subChunk2Size longAt dataRecord
  have := leNat_leBytes4 n (tagBytes 'd' 'a' 't' 'a') g 4 rfl
  simp only [List.append_assoc] at this ⊢
  rw [this]
  simp [toSigned]

theorem wavFile_length (cs a c r br ba bits n : Nat) (tail : List Nat) :
    (wavFile cs a c r br ba bits n tail).length = 44 + tail.length := by
  simp only [wavFile, List.length_append, riffRecord_length, formatRecord_length, dataRecord_length]
  omega

theorem readHeaders_wavFile (u : Uninit) (filename : String)
    (cs a c r br ba bits n : Nat) (tail : List Nat) :
    readHeaders u filename (wavFile cs a c r br ba bits n tail) =
      ⟨riffRecord cs ++ u.riff_header.drop 12,
       formatRecord a c r br ba bits ++ u.wave_format.drop 24,
       dataRecord n ++ u.wave_data.drop 8,
       ⟨filename, wavFile cs a c r br ba bits n tail, 44⟩⟩ := by
  unfold readHeaders
  dsimp only
  have e1 := fread_exact u.riff_header (riffRecord cs)
    (formatRecord a c r br ba bits ++ (dataRecord n ++ tail)) filename
    (wavFile cs a c r br ba bits n tail) 0 sizeof_RIFF_Header rfl (riffRecord_length cs) (by decide)
  rw [e1]
  have e2 := fread_exact u.wave_format (formatRecord a c r br ba bits)
    (dataRecord n ++ tail) filename
    (wavFile cs a c r br ba bits n tail) (0 + sizeof_RIFF_Header) sizeof_WAVE_Format
    (by unfold wavFile; exact List.drop_left' (riffRecord_length cs))
    (formatRecord_length a c r br ba bits) (by decide)
  dsimp only
  rw [e2]
  dsimp only
  rw [subChunkSize_formatRecord]
  rw [if_neg (by decide)]
  have e3 := fread_exact u.wave_data (dataRecord n) tail filename
    (wavFile cs a c r br ba bits n tail) (0 + sizeof_RIFF_Header + sizeof_WAVE_Format) sizeof_WAVE_Data
    (by
      unfold wavFile
      rw [← List.append_assoc]
      exact List.drop_left' (by simp [riffRecord_length, formatRecord_length, sizeof_RIFF_Header, sizeof_WAVE_Format]))
    (dataRecord_length n) (by decide)
  rw [e3]
  rfl


/-- The result of `loadWavFile` on a container of the standard layout whose declared
data size lies in 1..2^31-1 and is covered by the bytes that follow. -/
theorem loadWavFile_wavFile (fs : FileSystem) (u : Uninit) (filename : String)
    (ab : AudioBuffer_t) (w : World) (cs a c r br ba bits n : Nat) (tail : List Nat)
    (hfile : fs filename = some (wavFile cs a c r br ba bits n tail))
    (h1 : 1 ≤ n) (h2 : n < 2 ^ 31) (h3 : n ≤ tail.length) :
    loadWavFile fs u filename ab w =
      ⟨.returned true,
       ⟨w.generated + 1, n, toSigned 32 r,
        selectFormat (formatRecord a c r br ba bits ++ u.wave_format.drop 24) ab.format⟩,
       ⟨w.log ++ [.fopen filename true, .newArray n, .alGenBuffers (w.generated + 1),
          .alBufferData (w.generated + 1)
            (selectFormat (formatRecord a c r br ba bits ++ u.wave_format.drop 24) ab.format)
            (tail.take n) n (toSigned 32 r),
          .fclose filename], w.generated + 1⟩⟩ := by
  rw [loadWavFile_eq fs u filename ab w _ hfile, readHeaders_wavFile]
  have hs : subChunk2Size (dataRecord n ++ List.drop 8 u.wave_data) = (n : Int) := by
    rw [subChunk2Size_dataRecord, toSigned32_small n h2]
  have hd : List.drop 44 (wavFile cs a c r br ba bits n tail) = tail := by
    unfold wavFile
    rw [← List.append_assoc, ← List.append_assoc]
    exact List.drop_left' (by simp [riffRecord_length, formatRecord_length, dataRecord_length])
  simp only [Headers.riffAccepted, Headers.formatAccepted, Headers.dataAccepted, Headers.remaining,
    tagDiffers_riffRecord, tagDiffers_formatRecord, tagDiffers_dataRecord, hs, wavFile_length,
    sampleRate_formatRecord, hd, Bool.false_and, Bool.not_false, Bool.not_true, Int.toNat_ofNat]
  have c1 : ¬ ((n : Int) < 0) := by omega
  simp only [c1, if_false]
  have c2 : ¬ (n = 0 ∨ 44 + tail.length - 44 < n) := by omega
  simp only [Int.natCast_eq_zero, c2, if_false]
  simp


theorem toSigned32_large (v : Nat) (h1 : 2 ^ 31 ≤ v) (h2 : v < 2 ^ 32) : toSigned 32 v < 0 := by
  unfold toSigned
  have e : v % 2 ^ 32 = v := Nat.mod_eq_of_lt h2
  rw [e]
  simp only [show (32 - 1 : Nat) = 31 from rfl]
  rw [if_neg (by omega)]
  omega

/-- A container of the standard layout whose declared data size is 2^31 or more:
the size is negative as a `long` and `new[]` throws. -/
theorem loadWavFile_wavFile_negative (fs : FileSystem) (u : Uninit) (filename : String)
    (ab : AudioBuffer_t) (w : World) (cs a c r br ba bits n : Nat) (tail : List Nat)
    (hfile : fs filename = some (wavFile cs a c r br ba bits n tail))
    (h1 : 2 ^ 31 ≤ n) (h2 : n < 2 ^ 32) :
    loadWavFile fs u filename ab w =
      ⟨.raised ⟨.badArrayNewLength, "std::bad_array_new_length"⟩, ab,
       w.emit (.fopen filename true)⟩ := by
  rw [loadWavFile_eq fs u filename ab w _ hfile, readHeaders_wavFile]
  have hs : subChunk2Size (dataRecord n ++ List.drop 8 u.wave_data) < 0 := by
    rw [subChunk2Size_dataRecord]; exact toSigned32_large n h1 h2
  simp only [Headers.riffAccepted, Headers.formatAccepted, Headers.dataAccepted,
    tagDiffers_riffRecord, tagDiffers_formatRecord, tagDiffers_dataRecord, hs,
    Bool.false_and, Bool.not_false, Bool.not_true]
  simp

theorem selectFormat_formatRecord (a c r br ba bits : Nat) (g : List Nat) (old : Int)
    (hc : c = 1 ∨ c = 2) (hb : bits = 8 ∨ bits = 16) :
    selectFormat (formatRecord a c r br ba bits ++ g) old = formatOf c bits := by
  unfold selectFormat formatOf
  rw [numChannels_formatRecord, bitsPerSample_formatRecord]
  have e1 : toSigned 16 1 = 1 := by decide
  have e2 : toSigned 16 2 = 2 := by decide
  have e8 : toSigned 16 8 = 8 := by decide
  have e16 : toSigned 16 16 = 16 := by decide
  rcases hc with rfl | rfl <;> rcases hb with rfl | rfl <;> simp [e1, e2, e8, e16]

/-- C1 (as amended). For every container laid out as "RIFF", any size, "WAVE", "fmt "
with declared size 16, "data" with a declared size N with 1 ≤ N < 2^31, followed by at
least N bytes, for (channels, bits) in {1,2} x {8,16} and every sample rate field r,
`loadWavFile` returns true with size = N, frequency = r read as a signed 32-bit value
(r itself below 2^31) and the format tag of the pair. -/
theorem loadWavFile_wellFormed (fs : FileSystem) (u : Uninit) (filename : String)
    (audioBuffer : AudioBuffer_t) (w : World)
    (chunkSize audioFormat channels r byteRate blockAlign bits N : Nat) (tail : List Nat)
    (hfile : fs filename =
      some (wavFile chunkSize audioFormat channels r byteRate blockAlign bits N tail))
    (hchannels : channels = 1 ∨ channels = 2) (hbits : bits = 8 ∨ bits = 16)
    (hN : 1 ≤ N) (hlong : N < 2 ^ 31) (hpayload : N ≤ tail.length) :
    (loadWavFile fs u filename audioBuffer w).outcome = .returned true ∧
    (loadWavFile fs u filename audioBuffer w).audioBuffer.size = N ∧
    (loadWavFile fs u filename audioBuffer w).audioBuffer.frequency = toSigned 32 r ∧
    (r < 2 ^ 31 → (loadWavFile fs u filename audioBuffer w).audioBuffer.frequency = r) ∧
    (loadWavFile fs u filename audioBuffer w).audioBuffer.format = formatOf channels bits := by
  rw [loadWavFile_wavFile fs u filename audioBuffer w _ _ _ _ _ _ _ _ _ hfile hN hlong hpayload]
  dsimp only
  exact ⟨rfl, rfl, rfl, fun hr => toSigned32_small r hr,
    selectFormat_formatRecord audioFormat channels r byteRate blockAlign bits
      (u.wave_format.drop 24) audioBuffer.format hchannels hbits⟩

/-- C1, witness: mono, 8-bit, 8000 Hz, 4 payload bytes. -/
theorem loadWavFile_wellFormed_witness :
    (loadWavFile bleepFiles noGarbage "sound/bleep.wav" AudioBuffer_t.zero ⟨[], 0⟩).outcome
      = .returned true ∧
    (loadWavFile bleepFiles noGarbage "sound/bleep.wav" AudioBuffer_t.zero ⟨[], 0⟩).audioBuffer.size
      = 4 ∧
    (loadWavFile bleepFiles noGarbage "sound/bleep.wav" AudioBuffer_t.zero ⟨[], 0⟩).audioBuffer.frequency
      = 8000 ∧
    (loadWavFile bleepFiles noGarbage "sound/bleep.wav" AudioBuffer_t.zero ⟨[], 0⟩).audioBuffer.format
      = AL_FORMAT_MONO8 := by
  have h := loadWavFile_wellFormed bleepFiles noGarbage "sound/bleep.wav" AudioBuffer_t.zero ⟨[], 0⟩
    40 1 1 8000 8000 1 8 4 [128, 255, 128, 0] (by decide) (by decide) (by decide) (by decide)
    (by decide) (by decide)
  exact ⟨h.1, h.2.1, h.2.2.2.1 (by decide), h.2.2.2.2⟩

/-- C1, as stated, fails: a container with a declared data size of 2^31, followed by
2^31 payload bytes, is not loaded; the size is negative as a `long`, `new[]` throws
and the exception leaves `loadWavFile`. -/
theorem loadWavFile_wellFormed_counterexample :
    longWav = wavFile (36 + 2 ^ 31) 1 1 8000 8000 1 8 (2 ^ 31) (List.replicate (2 ^ 31) 128) ∧
    1 ≤ 2 ^ 31 ∧ 2 ^ 31 ≤ (List.replicate (2 ^ 31) 128).length ∧
    (loadWavFile (fun _ => some longWav) noGarbage "sound/long.wav" AudioBuffer_t.zero ⟨[], 0⟩).outcome
      = .raised ⟨.badArrayNewLength, "std::bad_array_new_length"⟩ := by
  refine ⟨rfl, by decide, by rw [List.length_replicate], ?_⟩
  rw [loadWavFile_wavFile_negative (fun _ => some longWav) noGarbage "sound/long.wav"
    AudioBuffer_t.zero ⟨[], 0⟩ (36 + 2 ^ 31) 1 1 8000 8000 1 8 (2 ^ 31) (List.replicate (2 ^ 31) 128)
    rfl (by decide) (by decide)]

/-! ## Failure paths of loadWavFile -/

/-- On a path with no file `loadWavFile` returns false and touches nothing. -/
theorem loadWavFile_missing (fs : FileSystem) (u : Uninit) (filename : String)
    (ab : AudioBuffer_t) (w : World) (hfile : fs filename = none) :
    loadWavFile fs u filename ab w = ⟨.returned false, ab, w.emit (.fopen filename false)⟩ := by
  unfold loadWavFile
  rw [hfile]

/-- The only way `loadWavFile` returns false is a file that cannot be opened: every
check that fails after the file is open throws, and the handler does not match. -/
theorem loadWavFile_returns_false_iff (fs : FileSystem) (u : Uninit) (filename : String)
    (ab : AudioBuffer_t) (w : World) :
    (loadWavFile fs u filename ab w).outcome = .returned false ↔ fs filename = none := by
  constructor
  · intro h
    cases hfile : fs filename with
    | none => rfl
    | some content =>
      rw [loadWavFile_eq fs u filename ab w content hfile] at h
      dsimp only at h
      split_ifs at h
      all_goals simp [throwLiteral] at h
  · intro h
    rw [loadWavFile_missing fs u filename ab w h]

/-- A call of `loadWavFile` that does not return true leaves the caller's record and
the count of device buffers as they were, and logs no buffer call. -/
theorem loadWavFile_failure_frame (fs : FileSystem) (u : Uninit) (filename : String)
    (ab : AudioBuffer_t) (w : World)
    (h : (loadWavFile fs u filename ab w).outcome ≠ .returned true) :
    (loadWavFile fs u filename ab w).audioBuffer = ab ∧
    (loadWavFile fs u filename ab w).world.generated = w.generated ∧
    ∃ l, (loadWavFile fs u filename ab w).world.log = w.log ++ l ∧
      ∀ e ∈ l, isBufferCall e = false := by
  cases hfile : fs filename with
  | none =>
    rw [loadWavFile_missing fs u filename ab w hfile]
    exact ⟨rfl, rfl, [.fopen filename false], rfl, by simp [isBufferCall]⟩
  | some content =>
    rw [loadWavFile_eq fs u filename ab w content hfile] at h ⊢
    dsimp only at h ⊢
    split_ifs at h ⊢
    · exact ⟨rfl, rfl, [.fopen filename true], rfl, by simp [isBufferCall]⟩
    · exact ⟨rfl, rfl, [.fopen filename true], rfl, by simp [isBufferCall]⟩
    · exact ⟨rfl, rfl, [.fopen filename true], rfl, by simp [isBufferCall]⟩
    · exact ⟨rfl, rfl, [.fopen filename true], rfl, by simp [isBufferCall]⟩
    · exact ⟨rfl, rfl,
        [.fopen filename true, .newArray (subChunk2Size (readHeaders u filename content).wave_data)],
        by simp [World.emit], by simp [isBufferCall]⟩
    · exact absurd rfl h

/-- C2: at a file of twelve zero bytes both header tags are rejected and the string
literal thrown (a `const char*`) is not matched by the `char*` handler; the exception
leaves `loadWavFile`, which returns no boolean and does not close the file. -/
theorem loadWavFile_rejected_header_escapes :
    handlerMatches .charPtr (throwLiteral "Invalid RIFF or WAVE Header").type = false ∧
    (loadWavFile (fun _ => some zeroFile) noGarbage "sound/zero.wav" AudioBuffer_t.zero
        ⟨[], 0⟩).outcome = .raised ⟨.constCharPtr, "Invalid RIFF or WAVE Header"⟩ ∧
    (loadWavFile (fun _ => some zeroFile) noGarbage "sound/zero.wav" AudioBuffer_t.zero
        ⟨[], 0⟩).world.log = [.fopen "sound/zero.wav" true] := by
  decide

/-- C3: at a container whose data sub-record tag reads "dat!" the exception thrown at
line 114 leaves `loadWavFile`: no failure is returned and `fclose` is not called (no
buffer call is made and the record is unchanged). -/
theorem loadWavFile_bad_data_tag_escapes :
    (loadWavFile (fun _ => some badDataTagWav) noGarbage "sound/bad.wav" AudioBuffer_t.zero
        ⟨[], 0⟩).outcome = .raised ⟨.constCharPtr, "Invalid data header"⟩ ∧
    (loadWavFile (fun _ => some badDataTagWav) noGarbage "sound/bad.wav" AudioBuffer_t.zero
        ⟨[], 0⟩).world = ⟨[.fopen "sound/bad.wav" true], 0⟩ ∧
    (loadWavFile (fun _ => some badDataTagWav) noGarbage "sound/bad.wav" AudioBuffer_t.zero
        ⟨[], 0⟩).audioBuffer = AudioBuffer_t.zero := by
  decide

/-- C4. For every file whose header, format and data tags are accepted and whose
declared data size (as the unsigned 4-byte field, or as the `long` the code reads)
exceeds the bytes remaining after the data sub-record header, `loadWavFile` does not
return true (an exception leaves it), no device buffer is created and the caller's
record keeps its size, frequency and format. -/
theorem loadWavFile_truncated (fs : FileSystem) (u : Uninit) (filename : String)
    (audioBuffer : AudioBuffer_t) (w : World) (content : List Nat)
    (hfile : fs filename = some content)
    (hriff : (readHeaders u filename content).riffAccepted = true)
    (hformat : (readHeaders u filename content).formatAccepted = true)
    (hdata : (readHeaders u filename content).dataAccepted = true)
    (hdeclared : (readHeaders u filename content).remaining
        < leNat (readHeaders u filename content).wave_data 4 4 ∨
      ((readHeaders u filename content).remaining : Int)
        < subChunk2Size (readHeaders u filename content).wave_data) :
    (loadWavFile fs u filename audioBuffer w).outcome ≠ .returned true ∧
    (∃ e, (loadWavFile fs u filename audioBuffer w).outcome = .raised e) ∧
    (loadWavFile fs u filename audioBuffer w).world.generated = w.generated ∧
    (∃ l, (loadWavFile fs u filename audioBuffer w).world.log = w.log ++ l ∧
      ∀ e ∈ l, isBufferCall e = false) ∧
    (loadWavFile fs u filename audioBuffer w).audioBuffer.size = audioBuffer.size ∧
    (loadWavFile fs u filename audioBuffer w).audioBuffer.frequency = audioBuffer.frequency ∧
    (loadWavFile fs u filename audioBuffer w).audioBuffer.format = audioBuffer.format := by
  have hne : (loadWavFile fs u filename audioBuffer w).outcome ≠ .returned true ∧
      ∃ e, (loadWavFile fs u filename audioBuffer w).outcome = .raised e := by
    rw [loadWavFile_eq fs u filename audioBuffer w content hfile]
    dsimp only
    rw [hriff, hformat, hdata]
    simp only [Bool.not_true, if_false, Bool.false_eq_true]
    by_cases hneg : subChunk2Size (readHeaders u filename content).wave_data < 0
    · rw [if_pos hneg]
      exact ⟨by simp, _, rfl⟩
    · rw [if_neg hneg]
      have hshort : subChunk2Size (readHeaders u filename content).wave_data = 0 ∨
          (readHeaders u filename content).remaining
            < (subChunk2Size (readHeaders u filename content).wave_data).toNat := by
        right
        rcases hdeclared with hd | hd
        · have hv := leNat4_lt (readHeaders u filename content).wave_data 4
          revert hd hneg hv
          unfold subChunk2Size longAt toSigned
          generalize leNat (readHeaders u filename content).wave_data 4 4 = v
          generalize (readHeaders u filename content).remaining = m
          simp only [show (32 - 1 : Nat) = 31 from rfl]
          intro hnonneg hlt hv
          by_cases hsmall : v % 2 ^ 32 < 2 ^ 31
          · rw [if_pos hsmall]; omega
          · rw [if_neg hsmall] at hnonneg; omega
        · omega
      rw [if_pos hshort]
      exact ⟨by simp, _, rfl⟩
  obtain ⟨hab, hgen, hlog⟩ := loadWavFile_failure_frame fs u filename audioBuffer w hne.1
  exact ⟨hne.1, hne.2, hgen, hlog, by rw [hab], by rw [hab], by rw [hab]⟩

/-- C4, witness: a container that declares 4 payload bytes and holds 2. -/
theorem loadWavFile_truncated_witness :
    (readHeaders noGarbage "sound/cut.wav" truncatedWav).remaining = 2 ∧
    leNat (readHeaders noGarbage "sound/cut.wav" truncatedWav).wave_data 4 4 = 4 ∧
    (loadWavFile (fun _ => some truncatedWav) noGarbage "sound/cut.wav" AudioBuffer_t.zero
        ⟨[], 0⟩).outcome ≠ .returned true :=
  ⟨by decide, by decide,
   (loadWavFile_truncated (fun _ => some truncatedWav) noGarbage "sound/cut.wav"
      AudioBuffer_t.zero ⟨[], 0⟩ truncatedWav rfl (by decide) (by decide) (by decide)
      (Or.inl (by decide))).1⟩

/-! ## Voice allocation -/

theorem PlayAudio_log (b : AudioBuffer_t) (s : State) :
    (PlayAudio b s).world.log = s.world.log ++
      [.alSourcei (s.audio_sources (nextTransient s)) AL_BUFFER (asALint b.buffer),
       .alSourcePlay (s.audio_sources (nextTransient s))] := by
  unfold PlayAudio nextTransient
  by_cases h : s.currentAudioTSource ≥ MAX_AUDIO_SOURCES - 1
  · simp [h, State.emit, World.emit]
  · simp [h, State.emit, World.emit]

theorem PlayAudio_cursor (b : AudioBuffer_t) (s : State) :
    (PlayAudio b s).currentAudioTSource = nextTransient s + 1 := by
  unfold PlayAudio nextTransient
  by_cases h : s.currentAudioTSource ≥ MAX_AUDIO_SOURCES - 1
  · simp [h, State.emit]
  · simp [h, State.emit]

theorem PlayAudio_audio_sources (b : AudioBuffer_t) (s : State) :
    (PlayAudio b s).audio_sources = s.audio_sources := by
  unfold PlayAudio
  by_cases h : s.currentAudioTSource ≥ MAX_AUDIO_SOURCES - 1
  · simp [h, State.emit]
  · simp [h, State.emit]

theorem playMany_audio_sources (bufs : Nat → AudioBuffer_t) (k : Nat) (s : State) :
    (playMany bufs k s).audio_sources = s.audio_sources := by
  induction k with
  | zero => rfl
  | succ k ih => rw [playMany, PlayAudio_audio_sources, ih]

theorem playMany_cursor (bufs : Nat → AudioBuffer_t) (k : Nat) (s : State)
    (h0 : s.currentAudioTSource = 0) :
    (playMany bufs k s).currentAudioTSource = if k = 0 then 0 else (((k - 1) % 31 : Nat) : Int) + 1 := by
  induction k with
  | zero => simpa [playMany] using h0
  | succ k ih =>
    rw [playMany, PlayAudio_cursor]
    unfold nextTransient
    rw [ih]
    simp only [MAX_AUDIO_SOURCES]
    by_cases hk : k = 0
    · subst hk; simp
    · simp only [hk, if_false, Nat.add_sub_cancel, Nat.succ_ne_zero]
      split <;> omega

theorem playMany_nextTransient (bufs : Nat → AudioBuffer_t) (k : Nat) (s : State)
    (h0 : s.currentAudioTSource = 0) :
    nextTransient (playMany bufs k s) = ((k % 31 : Nat) : Int) := by
  unfold nextTransient
  rw [playMany_cursor bufs k s h0]
  simp only [MAX_AUDIO_SOURCES]
  by_cases hk : k = 0
  · subst hk; simp
  · simp only [hk, if_false]
    split <;> omega

/-- C8. From a state with the cursor at 0, the k-th (from 0) of a run of `PlayAudio`
calls binds its buffer to, and plays, the voice `audio_sources[k mod 31]`; so the
first 31 calls use the voices 0, 1, ..., 30 in that order, pairwise different, and
the call after them uses voice 0 again. -/
theorem PlayAudio_round_robin (bufs : Nat → AudioBuffer_t) (s : State)
    (hcursor : s.currentAudioTSource = 0) :
    (∀ k : Nat, nextTransient (playMany bufs k s) = ((k % (MAX_AUDIO_SOURCES.toNat - 1) : Nat) : Int) ∧
      (playMany bufs (k + 1) s).world.log = (playMany bufs k s).world.log ++
        [.alSourcei (s.audio_sources ((k % (MAX_AUDIO_SOURCES.toNat - 1) : Nat) : Int)) AL_BUFFER
           (asALint (bufs k).buffer),
         .alSourcePlay (s.audio_sources ((k % (MAX_AUDIO_SOURCES.toNat - 1) : Nat) : Int))]) ∧
    (∀ k : Nat, k < 31 → nextTransient (playMany bufs k s) = (k : Int)) ∧
    (∀ j k : Nat, j < k → k < 31 →
      nextTransient (playMany bufs j s) ≠ nextTransient (playMany bufs k s)) ∧
    nextTransient (playMany bufs 31 s) = 0 := by
  have hN : MAX_AUDIO_SOURCES.toNat - 1 = 31 := by decide
  rw [hN]
  refine ⟨fun k => ⟨playMany_nextTransient bufs k s hcursor, ?_⟩, ?_, ?_, ?_⟩
  · show (PlayAudio (bufs k) (playMany bufs k s)).world.log = _
    rw [PlayAudio_log, playMany_nextTransient bufs k s hcursor, playMany_audio_sources]
  · intro k hk
    rw [playMany_nextTransient bufs k s hcursor, Nat.mod_eq_of_lt hk]
  · intro j k hjk hk
    rw [playMany_nextTransient bufs j s hcursor, playMany_nextTransient bufs k s hcursor,
      Nat.mod_eq_of_lt hk, Nat.mod_eq_of_lt (by omega)]
    omega
  · rw [playMany_nextTransient bufs 31 s hcursor]
    rfl

/-- C8, witness: the run started in the state at program start. -/
theorem PlayAudio_round_robin_witness :
    nextTransient (playMany (fun _ => AudioBuffer_t.zero) 30 State.initial) = 30 ∧
    nextTransient (playMany (fun _ => AudioBuffer_t.zero) 31 State.initial) = 0 :=
  ⟨(PlayAudio_round_robin (fun _ => AudioBuffer_t.zero) State.initial rfl).2.1 30 (by decide),
   (PlayAudio_round_robin (fun _ => AudioBuffer_t.zero) State.initial rfl).2.2.2⟩

/-! ## Music -/

theorem AudMix_PlayMusic_log (m : Int) (s : State) :
    (AudMix_PlayMusic m s).world.log = s.world.log ++
      (if s.currentMusicPlaying ≠ -1 then
         [Event.alSourceStop (s.audio_sources (MAX_AUDIO_SOURCES - 1))] else []) ++
      [.alSourcei (s.audio_sources (MAX_AUDIO_SOURCES - 1)) AL_BUFFER
         (asALint (s.musicPrecacheAudioTable m).buffer),
       .alSourcei (s.audio_sources (MAX_AUDIO_SOURCES - 1)) AL_LOOPING 1,
       .alSourcePlay (s.audio_sources (MAX_AUDIO_SOURCES - 1))] := by
  unfold AudMix_PlayMusic
  by_cases h : s.currentMusicPlaying = -1
  · simp [h, State.emit, World.emit]
  · simp [h, State.emit, World.emit]

theorem AudMix_PlayMusic_state (m : Int) (s : State) :
    (AudMix_PlayMusic m s).currentMusicPlaying = m ∧
    (AudMix_PlayMusic m s).audio_sources = s.audio_sources ∧
    (AudMix_PlayMusic m s).musicPrecacheAudioTable = s.musicPrecacheAudioTable ∧
    (AudMix_PlayMusic m s).currentAudioTSource = s.currentAudioTSource := by
  unfold AudMix_PlayMusic
  by_cases h : s.currentMusicPlaying = -1
  · simp [h, State.emit]
  · simp [h, State.emit]

/-- C9. For every argument m and every state, `AudMix_PlayMusic(m)` issues on the
reserved voice `audio_sources[MAX_AUDIO_SOURCES-1]`: a stop exactly when the music
state is not -1, then the bind of the buffer of music slot m, then looping on, then
play, and ends with the music state m. So for music IDs A and B (A not negative)
the second of `PlayMusic(A); PlayMusic(B)` stops the voice before it binds B, also
when B = A, and leaves the state B; a call from the idle state issues no stop. -/
theorem AudMix_PlayMusic_sequence (s : State) (m A B : Int) (hA : 0 ≤ A) :
    ((AudMix_PlayMusic m s).world.log = s.world.log ++
      (if s.currentMusicPlaying ≠ -1 then
         [Event.alSourceStop (s.audio_sources (MAX_AUDIO_SOURCES - 1))] else []) ++
      [.alSourcei (s.audio_sources (MAX_AUDIO_SOURCES - 1)) AL_BUFFER
         (asALint (s.musicPrecacheAudioTable m).buffer),
       .alSourcei (s.audio_sources (MAX_AUDIO_SOURCES - 1)) AL_LOOPING 1,
       .alSourcePlay (s.audio_sources (MAX_AUDIO_SOURCES - 1))]) ∧
    (AudMix_PlayMusic m s).currentMusicPlaying = m ∧
    ((AudMix_PlayMusic B (AudMix_PlayMusic A s)).world.log =
      (AudMix_PlayMusic A s).world.log ++
      [.alSourceStop (s.audio_sources (MAX_AUDIO_SOURCES - 1)),
       .alSourcei (s.audio_sources (MAX_AUDIO_SOURCES - 1)) AL_BUFFER
         (asALint (s.musicPrecacheAudioTable B).buffer),
       .alSourcei (s.audio_sources (MAX_AUDIO_SOURCES - 1)) AL_LOOPING 1,
       .alSourcePlay (s.audio_sources (MAX_AUDIO_SOURCES - 1))]) ∧
    (AudMix_PlayMusic B (AudMix_PlayMusic A s)).currentMusicPlaying = B ∧
    ((AudMix_PlayMusic A (AudMix_PlayMusic A s)).world.log =
      (AudMix_PlayMusic A s).world.log ++
      [.alSourceStop (s.audio_sources (MAX_AUDIO_SOURCES - 1)),
       .alSourcei (s.audio_sources (MAX_AUDIO_SOURCES - 1)) AL_BUFFER
         (asALint (s.musicPrecacheAudioTable A).buffer),
       .alSourcei (s.audio_sources (MAX_AUDIO_SOURCES - 1)) AL_LOOPING 1,
       .alSourcePlay (s.audio_sources (MAX_AUDIO_SOURCES - 1))]) ∧
    (s.currentMusicPlaying = -1 →
      (AudMix_PlayMusic m s).world.log = s.world.log ++
        [.alSourcei (s.audio_sources (MAX_AUDIO_SOURCES - 1)) AL_BUFFER
           (asALint (s.musicPrecacheAudioTable m).buffer),
         .alSourcei (s.audio_sources (MAX_AUDIO_SOURCES - 1)) AL_LOOPING 1,
         .alSourcePlay (s.audio_sources (MAX_AUDIO_SOURCES - 1))]) := by
  have two : ∀ X : Int, (AudMix_PlayMusic X (AudMix_PlayMusic A s)).world.log =
      (AudMix_PlayMusic A s).world.log ++
      [.alSourceStop (s.audio_sources (MAX_AUDIO_SOURCES - 1)),
       .alSourcei (s.audio_sources (MAX_AUDIO_SOURCES - 1)) AL_BUFFER
         (asALint (s.musicPrecacheAudioTable X).buffer),
       .alSourcei (s.audio_sources (MAX_AUDIO_SOURCES - 1)) AL_LOOPING 1,
       .alSourcePlay (s.audio_sources (MAX_AUDIO_SOURCES - 1))] := by
    intro X
    obtain ⟨hcur, hsrc, htab, _⟩ := AudMix_PlayMusic_state A s
    have hne : (AudMix_PlayMusic A s).currentMusicPlaying ≠ -1 := by rw [hcur]; omega
    rw [AudMix_PlayMusic_log X (AudMix_PlayMusic A s), if_pos hne, hsrc, htab]
    simp
  refine ⟨AudMix_PlayMusic_log m s, (AudMix_PlayMusic_state m s).1, two B,
    (AudMix_PlayMusic_state B _).1, two A, ?_⟩
  intro hidle
  rw [AudMix_PlayMusic_log m s]
  simp [hidle]

/-- C9, witness: track 3, then track 5, from the state at program start. -/
theorem AudMix_PlayMusic_sequence_witness :
    (AudMix_PlayMusic 5 (AudMix_PlayMusic 3 State.initial)).currentMusicPlaying = 5 ∧
    (AudMix_PlayMusic 5 (AudMix_PlayMusic 3 State.initial)).world.log =
      (AudMix_PlayMusic 3 State.initial).world.log ++
      [.alSourceStop 0, .alSourcei 0 AL_BUFFER 0, .alSourcei 0 AL_LOOPING 1, .alSourcePlay 0] :=
  ⟨(AudMix_PlayMusic_sequence State.initial 0 3 5 (by decide)).2.2.2.1,
   (AudMix_PlayMusic_sequence State.initial 0 3 5 (by decide)).2.2.1⟩

/-! ## Playback of slots -/

/-- C10, as stated, fails: with no file on disk every load of the precache returns
false, so slot (neutral, 0) is unset, and `On_Sound_Effect` for the in-range ID 0
still issues the bind-buffer call for that slot (with the buffer name 0 it holds). -/
theorem unset_slot_bound_counterexample :
    (AudMix_Init silentEnv State.initial).2.loads.length = 5 ∧
    (∀ c ∈ (AudMix_Init silentEnv State.initial).2.loads, c.outcome = .returned false) ∧
    (AudMix_Init silentEnv State.initial).2.precacheAudioTable AUDIO_BUFFER_HOUSE_NONE 0
      = AudioBuffer_t.zero ∧
    (On_Sound_Effect silentEnv 0 0 0 0 (AudMix_Init silentEnv State.initial).2).world.log =
      (AudMix_Init silentEnv State.initial).2.world.log ++
        [.alSourcei 1 AL_BUFFER 0, .alSourcePlay 1] := by
  decide

/-- C10 (as amended). Whatever the tables hold, set or unset: `On_Sound_Effect` with
an index other than `VOC_NONE` binds the buffer field of the neutral slot of that
index, `On_Speech` with a null house binds the buffer field of the speech slot, and
`AudMix_PlayMusic` binds the buffer field of the music slot; no test of the slot is
made. Only `VOC_NONE` and a non-null house suppress the bind: they log nothing. -/
theorem playback_binds_slot_unchecked (env : Env) (s : State)
    (id variation coord house : Int) (hid : id ≠ env.VOC_NONE) :
    (On_Sound_Effect env id variation coord house s).world.log = s.world.log ++
      [.alSourcei (s.audio_sources (nextTransient s)) AL_BUFFER
         (asALint (s.precacheAudioTable AUDIO_BUFFER_HOUSE_NONE id).buffer),
       .alSourcePlay (s.audio_sources (nextTransient s))] ∧
    (On_Speech id true s).world.log = s.world.log ++
      [.alSourcei (s.audio_sources (nextTransient s)) AL_BUFFER
         (asALint (s.speechPrecacheAudioTable id).buffer),
       .alSourcePlay (s.audio_sources (nextTransient s))] ∧
    Event.alSourcei (s.audio_sources (MAX_AUDIO_SOURCES - 1)) AL_BUFFER
        (asALint (s.musicPrecacheAudioTable id).buffer) ∈ (AudMix_PlayMusic id s).world.log ∧
    (On_Sound_Effect env env.VOC_NONE variation coord house s).world.log = s.world.log ∧
    (On_Speech id false s).world.log = s.world.log := by
  refine ⟨?_, ?_, ?_, ?_, ?_⟩
  · unfold On_Sound_Effect
    simp only [hid, if_false]
    exact PlayAudio_log _ s
  · unfold On_Speech
    simp only [if_true]
    exact PlayAudio_log _ s
  · rw [AudMix_PlayMusic_log]
    simp
  · unfold On_Sound_Effect
    simp
  · unfold On_Speech
    simp

/-- C10, witness: effect 0 after a precache that loaded nothing. -/
theorem playback_binds_slot_unchecked_witness :
    (On_Sound_Effect silentEnv 0 0 0 0 (AudMix_Init silentEnv State.initial).2).world.log =
      (AudMix_Init silentEnv State.initial).2.world.log ++
      [.alSourcei ((AudMix_Init silentEnv State.initial).2.audio_sources
          (nextTransient (AudMix_Init silentEnv State.initial).2)) AL_BUFFER
         (asALint ((AudMix_Init silentEnv State.initial).2.precacheAudioTable
            AUDIO_BUFFER_HOUSE_NONE 0).buffer),
       .alSourcePlay ((AudMix_Init silentEnv State.initial).2.audio_sources
          (nextTransient (AudMix_Init silentEnv State.initial).2))] :=
  (playback_binds_slot_unchecked silentEnv (AudMix_Init silentEnv State.initial).2 0 0 0 0
    (by decide)).1

/-! ## The precache passes -/

theorem loadInto_loads (env : Env) (f : String) (slot : Slot) (s : State) :
    (loadInto env f slot s).2.loads = s.loads ++ [⟨slot, f, (loadInto env f slot s).1⟩] := rfl

theorem loadInto_effect_table (env : Env) (f : String) (house : Nat) (i : Int) (s : State)
    (h : Nat) (j : Int) (hne : ¬ (h = house ∧ j = i)) :
    (loadInto env f (.effect house i) s).2.precacheAudioTable h j = s.precacheAudioTable h j := by
  unfold loadInto
  simp only [State.set]
  rw [if_neg hne]

/-- What one iteration of the effects loop does to the call list and the table. -/
theorem effectBody_spec (env : Env) (i : Int) (s : State) :
    ∃ L, (effectBody env i s).2.loads = s.loads ++ L ∧
      (∀ c ∈ L, c.slot.id = i) ∧
      (∀ h j, j ≠ i →
        (effectBody env i s).2.precacheAudioTable h j = s.precacheAudioTable h j) ∧
      (∀ p, (⟨.effect AUDIO_BUFFER_HOUSE_NONE i, p, .returned true⟩ : LoadCall) ∈ L →
        L = [⟨.effect AUDIO_BUFFER_HOUSE_NONE i,
              "sound/" ++ env.GetEffectFileName i ++ ".wav", .returned true⟩] ∧
        (effectBody env i s).2.precacheAudioTable AUDIO_BUFFER_HOUSE_ALIED i
          = s.precacheAudioTable AUDIO_BUFFER_HOUSE_ALIED i ∧
        (effectBody env i s).2.precacheAudioTable AUDIO_BUFFER_HOUSE_SOVIET i
          = s.precacheAudioTable AUDIO_BUFFER_HOUSE_SOVIET i) := by
  unfold effectBody
  have l1 := loadInto_loads env ("sound/" ++ env.GetEffectFileName i ++ ".wav")
    (.effect AUDIO_BUFFER_HOUSE_NONE i) s
  have t1 := loadInto_effect_table env ("sound/" ++ env.GetEffectFileName i ++ ".wav")
    AUDIO_BUFFER_HOUSE_NONE i s
  rcases h1 : loadInto env ("sound/" ++ env.GetEffectFileName i ++ ".wav")
    (.effect AUDIO_BUFFER_HOUSE_NONE i) s with ⟨o1, s1⟩
  rw [h1] at l1 t1
  dsimp only at l1 t1
  cases o1 with
  | raised e =>
    dsimp only
    refine ⟨_, l1, by simp [Slot.id], fun h j hj => t1 h j (by simp [hj]), ?_⟩
    intro p hp
    simp at hp
  | returned b =>
    cases b with
    | true =>
      dsimp only
      refine ⟨_, l1, by simp [Slot.id], fun h j hj => t1 h j (by simp [hj]), ?_⟩
      intro p _
      exact ⟨rfl, t1 _ _ (by simp [AUDIO_BUFFER_HOUSE_NONE, AUDIO_BUFFER_HOUSE_ALIED]),
        t1 _ _ (by simp [AUDIO_BUFFER_HOUSE_NONE, AUDIO_BUFFER_HOUSE_SOVIET])⟩
    | false =>
      dsimp only
      have l2 := loadInto_loads env ("sound/alied/" ++ env.GetEffectFileName i ++ ".wav")
        (.effect AUDIO_BUFFER_HOUSE_ALIED i) s1
      have t2 := loadInto_effect_table env ("sound/alied/" ++ env.GetEffectFileName i ++ ".wav")
        AUDIO_BUFFER_HOUSE_ALIED i s1
      rcases h2 : loadInto env ("sound/alied/" ++ env.GetEffectFileName i ++ ".wav")
        (.effect AUDIO_BUFFER_HOUSE_ALIED i) s1 with ⟨o2, s2⟩
      rw [h2] at l2 t2
      dsimp only at l2 t2
      cases o2 with
      | raised e =>
        dsimp only
        refine ⟨_, by rw [l2, l1, List.append_assoc], by simp [Slot.id],
          fun h j hj => by rw [t2 h j (by simp [hj]), t1 h j (by simp [hj])], ?_⟩
        intro p hp
        simp [AUDIO_BUFFER_HOUSE_NONE, AUDIO_BUFFER_HOUSE_ALIED] at hp
      | returned b2 =>
        dsimp only
        have l3 := loadInto_loads env ("sound/russian/" ++ env.GetEffectFileName i ++ ".wav")
          (.effect AUDIO_BUFFER_HOUSE_SOVIET i) s2
        have t3 := loadInto_effect_table env
          ("sound/russian/" ++ env.GetEffectFileName i ++ ".wav") AUDIO_BUFFER_HOUSE_SOVIET i s2
        rcases h3 : loadInto env ("sound/russian/" ++ env.GetEffectFileName i ++ ".wav")
          (.effect AUDIO_BUFFER_HOUSE_SOVIET i) s2 with ⟨o3, s3⟩
        rw [h3] at l3 t3
        dsimp only at l3 t3
        have key : ∃ L, s3.loads = s.loads ++ L ∧ (∀ c ∈ L, c.slot.id = i) ∧
            (∀ h j, j ≠ i → s3.precacheAudioTable h j = s.precacheAudioTable h j) ∧
            (∀ p, (⟨.effect AUDIO_BUFFER_HOUSE_NONE i, p, .returned true⟩ : LoadCall) ∉ L) := by
          refine ⟨_, by rw [l3, l2, l1, List.append_assoc, List.append_assoc], by simp [Slot.id],
            fun h j hj => by
              rw [t3 h j (by simp [hj]), t2 h j (by simp [hj]), t1 h j (by simp [hj])], ?_⟩
          intro p hp
          simp [AUDIO_BUFFER_HOUSE_NONE, AUDIO_BUFFER_HOUSE_ALIED, AUDIO_BUFFER_HOUSE_SOVIET] at hp
        obtain ⟨L, hL, hid, hframe, hno⟩ := key
        cases o3 with
        | raised e => exact ⟨L, hL, hid, hframe, fun p hp => absurd hp (hno p)⟩
        | returned b3 => exact ⟨L, hL, hid, hframe, fun p hp => absurd hp (hno p)⟩

theorem callsFor_append (i : Int) (L1 L2 : List LoadCall) :
    callsFor i (L1 ++ L2) = callsFor i L1 ++ callsFor i L2 := by
  simp [callsFor]

theorem callsFor_eq_nil (i : Int) (L : List LoadCall) (h : ∀ c ∈ L, c.slot.id ≠ i) :
    callsFor i L = [] := by
  unfold callsFor
  rw [List.filter_eq_nil_iff]
  intro c hc
  simpa using h c hc

theorem callsFor_eq_self (i : Int) (L : List LoadCall) (h : ∀ c ∈ L, c.slot.id = i) :
    callsFor i L = L := by
  unfold callsFor
  rw [List.filter_eq_self]
  intro c hc
  simpa using h c hc

/-- What the effects loop, with `k` iterations left at counter `j`, does to the call
list and the table. -/
theorem effects_forLoop_spec (env : Env) (k : Nat) :
    ∀ (j : Int) (s : State),
    ∃ L, (forLoop (effectBody env) k j s).2.loads = s.loads ++ L ∧
      (∀ c ∈ L, j ≤ c.slot.id) ∧
      (∀ h i, i < j →
        (forLoop (effectBody env) k j s).2.precacheAudioTable h i = s.precacheAudioTable h i) ∧
      (∀ i p, (⟨.effect AUDIO_BUFFER_HOUSE_NONE i, p, .returned true⟩ : LoadCall) ∈ L →
        callsFor i L = [⟨.effect AUDIO_BUFFER_HOUSE_NONE i,
              "sound/" ++ env.GetEffectFileName i ++ ".wav", .returned true⟩] ∧
        (forLoop (effectBody env) k j s).2.precacheAudioTable AUDIO_BUFFER_HOUSE_ALIED i
          = s.precacheAudioTable AUDIO_BUFFER_HOUSE_ALIED i ∧
        (forLoop (effectBody env) k j s).2.precacheAudioTable AUDIO_BUFFER_HOUSE_SOVIET i
          = s.precacheAudioTable AUDIO_BUFFER_HOUSE_SOVIET i) := by
  induction k with
  | zero =>
    intro j s
    exact ⟨[], by simp [forLoop], by simp, fun _ _ _ => rfl, by simp⟩
  | succ k ih =>
    intro j s
    obtain ⟨L1, hL1, hid1, hframe1, htrue1⟩ := effectBody_spec env j s
    rw [forLoop]
    rcases hb : effectBody env j s with ⟨o, s1⟩
    rw [hb] at hL1 hframe1 htrue1
    dsimp only at hL1 hframe1 htrue1
    have single : ∀ i p, (⟨.effect AUDIO_BUFFER_HOUSE_NONE i, p, .returned true⟩ : LoadCall) ∈ L1 →
        i = j := by
      intro i p hp
      have := hid1 _ hp
      simpa [Slot.id] using this
    cases o with
    | raised e =>
      dsimp only
      refine ⟨L1, hL1, fun c hc => by rw [hid1 c hc], fun h i hi => hframe1 h i (by omega), ?_⟩
      intro i p hp
      have hij := single i p hp
      subst hij
      obtain ⟨hL, ha, hs⟩ := htrue1 p hp
      exact ⟨by rw [callsFor_eq_self i L1 hid1]; exact hL, ha, hs⟩
    | returned u =>
      dsimp only
      obtain ⟨L2, hL2, hid2, hframe2, htrue2⟩ := ih (j + 1) s1
      refine ⟨L1 ++ L2, by rw [hL2, hL1, List.append_assoc], ?_, ?_, ?_⟩
      · intro c hc
        rcases List.mem_append.mp hc with h | h
        · rw [hid1 c h]
        · have := hid2 c h; omega
      · intro h i hi
        rw [hframe2 h i (by omega), hframe1 h i (by omega)]
      · intro i p hp
        rw [callsFor_append]
        rcases List.mem_append.mp hp with h | h
        · have hij := single i p h
          subst hij
          obtain ⟨hL, ha, hs⟩ := htrue1 p h
          rw [callsFor_eq_self i L1 hid1,
            callsFor_eq_nil i L2 (fun c hc => by have := hid2 c hc; omega), List.append_nil]
          exact ⟨hL, by rw [hframe2 _ i (by omega), ha], by rw [hframe2 _ i (by omega), hs]⟩
        · have hge : j + 1 ≤ i := by
            have := hid2 _ h
            simpa [Slot.id] using this
          obtain ⟨hc, ha, hs⟩ := htrue2 i p h
          rw [callsFor_eq_nil i L1 (fun c hc => by rw [hid1 c hc]; omega), List.nil_append]
          exact ⟨hc, by rw [ha, hframe1 _ i (by omega)], by rw [hs, hframe1 _ i (by omega)]⟩

/-- C5. In the effects pass, for every effect ID i whose neutral load
`sound/<name>.wav` returns true, the calls of `loadWavFile` made for ID i are that
one call and no other (none for `sound/alied/` or `sound/russian/`), and the
faction-A and faction-B slots of i are as they were before the pass. -/
theorem effectsPass_neutral_only (env : Env) (s : State) (i : Int) (p : String)
    (hloaded : (⟨.effect AUDIO_BUFFER_HOUSE_NONE i, p, .returned true⟩ : LoadCall)
      ∈ newLoads s (effectsPass env s).2) :
    callsFor i (newLoads s (effectsPass env s).2) =
      [⟨.effect AUDIO_BUFFER_HOUSE_NONE i, "sound/" ++ env.GetEffectFileName i ++ ".wav",
        .returned true⟩] ∧
    (callsFor i (newLoads s (effectsPass env s).2)).length = 1 ∧
    (effectsPass env s).2.precacheAudioTable AUDIO_BUFFER_HOUSE_ALIED i
      = s.precacheAudioTable AUDIO_BUFFER_HOUSE_ALIED i ∧
    (effectsPass env s).2.precacheAudioTable AUDIO_BUFFER_HOUSE_SOVIET i
      = s.precacheAudioTable AUDIO_BUFFER_HOUSE_SOVIET i := by
  obtain ⟨L, hL, _, _, htrue⟩ := effects_forLoop_spec env env.VOC_COUNT 0 s
  have hnew : newLoads s (effectsPass env s).2 = L := by
    unfold newLoads effectsPass
    rw [hL]
    exact List.drop_left' rfl
  rw [hnew] at hloaded ⊢
  obtain ⟨hc, ha, hs⟩ := htrue i p hloaded
  exact ⟨hc, by rw [hc]; rfl, ha, hs⟩

/-- C5, witness: only `sound/bleep.wav` exists; slot (neutral, 0) is filled with
frequency 8000, size 4, format mono 8-bit and the faction slots of ID 0 stay unset. -/
theorem effectsPass_neutral_only_witness :
    (effectsPass bleepEnv State.initial).2.precacheAudioTable AUDIO_BUFFER_HOUSE_NONE 0
      = ⟨1, 4, 8000, AL_FORMAT_MONO8⟩ ∧
    callsFor 0 (newLoads State.initial (effectsPass bleepEnv State.initial).2) =
      [⟨.effect AUDIO_BUFFER_HOUSE_NONE 0, "sound/bleep.wav", .returned true⟩] ∧
    (effectsPass bleepEnv State.initial).2.precacheAudioTable AUDIO_BUFFER_HOUSE_ALIED 0
      = AudioBuffer_t.zero ∧
    (effectsPass bleepEnv State.initial).2.precacheAudioTable AUDIO_BUFFER_HOUSE_SOVIET 0
      = AudioBuffer_t.zero :=
  have h := effectsPass_neutral_only bleepEnv State.initial 0 "sound/bleep.wav" (by decide)
  ⟨by decide, h.1, h.2.2.1, h.2.2.2⟩

/-- When the neutral load returns false and the faction-A load returns at all, the
iteration makes the three calls in the order neutral, faction-A, faction-B. -/
theorem effectBody_three_calls (env : Env) (i : Int) (s : State) (b : Bool)
    (hneutral : (loadInto env ("sound/" ++ env.GetEffectFileName i ++ ".wav")
      (.effect AUDIO_BUFFER_HOUSE_NONE i) s).1 = .returned false)
    (hallied : (loadInto env ("sound/alied/" ++ env.GetEffectFileName i ++ ".wav")
      (.effect AUDIO_BUFFER_HOUSE_ALIED i)
      (loadInto env ("sound/" ++ env.GetEffectFileName i ++ ".wav")
        (.effect AUDIO_BUFFER_HOUSE_NONE i) s).2).1 = .returned b) :
    ∃ o, (effectBody env i s).2.loads = s.loads ++
      [⟨.effect AUDIO_BUFFER_HOUSE_NONE i, "sound/" ++ env.GetEffectFileName i ++ ".wav",
          .returned false⟩,
       ⟨.effect AUDIO_BUFFER_HOUSE_ALIED i, "sound/alied/" ++ env.GetEffectFileName i ++ ".wav",
          .returned b⟩,
       ⟨.effect AUDIO_BUFFER_HOUSE_SOVIET i, "sound/russian/" ++ env.GetEffectFileName i ++ ".wav",
          o⟩] := by
  unfold effectBody
  have l1 := loadInto_loads env ("sound/" ++ env.GetEffectFileName i ++ ".wav")
    (.effect AUDIO_BUFFER_HOUSE_NONE i) s
  rcases h1 : loadInto env ("sound/" ++ env.GetEffectFileName i ++ ".wav")
    (.effect AUDIO_BUFFER_HOUSE_NONE i) s with ⟨o1, s1⟩
  rw [h1] at l1 hneutral hallied
  dsimp only at l1 hneutral hallied
  subst hneutral
  dsimp only
  have l2 := loadInto_loads env ("sound/alied/" ++ env.GetEffectFileName i ++ ".wav")
    (.effect AUDIO_BUFFER_HOUSE_ALIED i) s1
  rcases h2 : loadInto env ("sound/alied/" ++ env.GetEffectFileName i ++ ".wav")
    (.effect AUDIO_BUFFER_HOUSE_ALIED i) s1 with ⟨o2, s2⟩
  rw [h2] at l2 hallied
  dsimp only at l2 hallied
  subst hallied
  dsimp only
  have l3 := loadInto_loads env ("sound/russian/" ++ env.GetEffectFileName i ++ ".wav")
    (.effect AUDIO_BUFFER_HOUSE_SOVIET i) s2
  rcases h3 : loadInto env ("sound/russian/" ++ env.GetEffectFileName i ++ ".wav")
    (.effect AUDIO_BUFFER_HOUSE_SOVIET i) s2 with ⟨o3, s3⟩
  rw [h3] at l3
  dsimp only at l3
  refine ⟨o3, ?_⟩
  cases o3 with
  | raised e => dsimp only; rw [l3, l2, l1]; simp
  | returned b3 => dsimp only; rw [l3, l2, l1]; simp

/-- C6: with `sound/bleep.wav` missing and `sound/alied/bleep.wav` corrupt, the
neutral load of effect 0 returns false, the faction-A load throws, the exception
leaves the pass and the faction-B load is never attempted: two calls, not three. -/
theorem effectsPass_corrupt_allied_skips_soviet :
    (effectsPass corruptAlliedEnv State.initial).1
      = .raised ⟨.constCharPtr, "Invalid RIFF or WAVE Header"⟩ ∧
    (effectsPass corruptAlliedEnv State.initial).2.loads =
      [⟨.effect AUDIO_BUFFER_HOUSE_NONE 0, "sound/bleep.wav", .returned false⟩,
       ⟨.effect AUDIO_BUFFER_HOUSE_ALIED 0, "sound/alied/bleep.wav",
        .raised ⟨.constCharPtr, "Invalid RIFF or WAVE Header"⟩⟩] := by
  decide

/-- C7: with the device and the context open and `sound/bleep.wav` corrupt, the
first load throws and the exception leaves `AudMix_Init`: effect 1, the speech line
and the track are never attempted and no voice is allocated. -/
theorem AudMix_Init_corrupt_file_aborts :
    (AudMix_Init corruptNeutralEnv State.initial).1
      = .raised ⟨.constCharPtr, "Invalid RIFF or WAVE Header"⟩ ∧
    (AudMix_Init corruptNeutralEnv State.initial).2.loads =
      [⟨.effect AUDIO_BUFFER_HOUSE_NONE 0, "sound/bleep.wav",
        .raised ⟨.constCharPtr, "Invalid RIFF or WAVE Header"⟩⟩] ∧
    (AudMix_Init corruptNeutralEnv State.initial).2.world.log =
      [.alcOpenDevice true, .alcCreateContext, .alcMakeContextCurrent true,
       .fopen "sound/bleep.wav" true] := by
  decide

/-! ## Frame of the playback calls -/

theorem PlayAudio_frame (b : AudioBuffer_t) (s : State) :
    (PlayAudio b s).currentMusicPlaying = s.currentMusicPlaying ∧
    (PlayAudio b s).precacheAudioTable = s.precacheAudioTable ∧
    (PlayAudio b s).speechPrecacheAudioTable = s.speechPrecacheAudioTable ∧
    (PlayAudio b s).musicPrecacheAudioTable = s.musicPrecacheAudioTable := by
  unfold PlayAudio
  by_cases h : s.currentAudioTSource ≥ MAX_AUDIO_SOURCES - 1
  · simp [h, State.emit]
  · simp [h, State.emit]

theorem On_Sound_Effect_eq (env : Env) (sound_index variation coord house : Int) (s : State) :
    On_Sound_Effect env sound_index variation coord house s =
      if sound_index = env.VOC_NONE then s
      else PlayAudio (s.precacheAudioTable AUDIO_BUFFER_HOUSE_NONE sound_index) s := rfl

theorem On_Speech_eq (speech_index : Int) (houseIsNull : Bool) (s : State) :
    On_Speech speech_index houseIsNull s =
      if houseIsNull then PlayAudio (s.speechPrecacheAudioTable speech_index) s else s := rfl

/-- C15. For every state and all arguments, `PlayAudio`, `On_Sound_Effect` and
`On_Speech` leave `currentMusicPlaying` as it was, and `AudMix_PlayMusic` leaves
`currentAudioTSource` as it was (and sets `currentMusicPlaying` to its argument). -/
theorem music_state_frame (env : Env) (s : State) (buffer : AudioBuffer_t)
    (sound_index variation coord house speech_index musicId : Int) (houseIsNull : Bool) :
    (PlayAudio buffer s).currentMusicPlaying = s.currentMusicPlaying ∧
    (On_Sound_Effect env sound_index variation coord house s).currentMusicPlaying
      = s.currentMusicPlaying ∧
    (On_Speech speech_index houseIsNull s).currentMusicPlaying = s.currentMusicPlaying ∧
    (AudMix_PlayMusic musicId s).currentAudioTSource = s.currentAudioTSource ∧
    (AudMix_PlayMusic musicId s).currentMusicPlaying = musicId := by
  refine ⟨(PlayAudio_frame buffer s).1, ?_, ?_, (AudMix_PlayMusic_state musicId s).2.2.2,
    (AudMix_PlayMusic_state musicId s).1⟩
  · rw [On_Sound_Effect_eq]
    split
    · rfl
    · exact (PlayAudio_frame _ s).1
  · rw [On_Speech_eq]
    split
    · exact (PlayAudio_frame _ s).1
    · rfl

/-! ## The playback entry points -/

/-- C16. With `sound_index` equal to `VOC_NONE`, `On_Sound_Effect` returns the state
it was given (nothing logged, cursor included). With any other index it is
`PlayAudio` applied to `precacheAudioTable[AUDIO_BUFFER_HOUSE_NONE][sound_index]`: one
bind of that slot's buffer and one play on the next transient voice, the cursor
advanced; `variation`, `coord` and `house` have no influence, and the buffer bound is
never taken from a faction slot. -/
theorem On_Sound_Effect_routes_neutral (env : Env) (s : State)
    (sound_index variation coord house variation' coord' house' : Int)
    (hvoc : sound_index ≠ env.VOC_NONE) :
    On_Sound_Effect env env.VOC_NONE variation coord house s = s ∧
    On_Sound_Effect env sound_index variation coord house s
      = PlayAudio (s.precacheAudioTable AUDIO_BUFFER_HOUSE_NONE sound_index) s ∧
    On_Sound_Effect env sound_index variation coord house s
      = On_Sound_Effect env sound_index variation' coord' house' s ∧
    On_Sound_Effect env env.VOC_NONE variation coord house s
      = On_Sound_Effect env env.VOC_NONE variation' coord' house' s ∧
    (On_Sound_Effect env sound_index variation coord house s).world.log = s.world.log ++
      [.alSourcei (s.audio_sources (nextTransient s)) AL_BUFFER
         (asALint (s.precacheAudioTable AUDIO_BUFFER_HOUSE_NONE sound_index).buffer),
       .alSourcePlay (s.audio_sources (nextTransient s))] ∧
    (On_Sound_Effect env sound_index variation coord house s).currentAudioTSource
      = nextTransient s + 1 := by
  have hplay : On_Sound_Effect env sound_index variation coord house s
      = PlayAudio (s.precacheAudioTable AUDIO_BUFFER_HOUSE_NONE sound_index) s := by
    rw [On_Sound_Effect_eq, if_neg hvoc]
  refine ⟨?_, hplay, rfl, rfl, ?_, ?_⟩
  · rw [On_Sound_Effect_eq, if_pos rfl]
  · rw [hplay, PlayAudio_log]
  · rw [hplay, PlayAudio_cursor]

/-- C16, witness: effect 0 on the machine whose `VOC_NONE` is -1, at program start. -/
theorem On_Sound_Effect_routes_neutral_witness :
    (On_Sound_Effect silentEnv 0 1 2 3 State.initial).world.log =
      [.alSourcei 0 AL_BUFFER 0, .alSourcePlay 0] ∧
    (On_Sound_Effect silentEnv 0 1 2 3 State.initial).currentAudioTSource = 1 ∧
    On_Sound_Effect silentEnv (-1) 1 2 3 State.initial = State.initial :=
  have h := On_Sound_Effect_routes_neutral silentEnv State.initial 0 1 2 3 4 5 6 (by decide)
  ⟨h.2.2.2.2.1, h.2.2.2.2.2, h.1⟩

/-- C17. With a null house, `On_Speech` is `PlayAudio` applied to
`speechPrecacheAudioTable[speech_index]`: one bind of that slot's buffer and one play
on the next transient voice, the cursor advanced. With a non-null house it returns
the state it was given: nothing logged, cursor and music state unchanged. -/
theorem On_Speech_null_house_only (s : State) (speech_index : Int) :
    On_Speech speech_index true s = PlayAudio (s.speechPrecacheAudioTable speech_index) s ∧
    (On_Speech speech_index true s).world.log = s.world.log ++
      [.alSourcei (s.audio_sources (nextTransient s)) AL_BUFFER
         (asALint (s.speechPrecacheAudioTable speech_index).buffer),
       .alSourcePlay (s.audio_sources (nextTransient s))] ∧
    (On_Speech speech_index true s).currentAudioTSource = nextTransient s + 1 ∧
    On_Speech speech_index false s = s ∧
    (On_Speech speech_index false s).world.log = s.world.log ∧
    (On_Speech speech_index false s).currentAudioTSource = s.currentAudioTSource ∧
    (On_Speech speech_index false s).currentMusicPlaying = s.currentMusicPlaying := by
  have hplay : On_Speech speech_index true s
      = PlayAudio (s.speechPrecacheAudioTable speech_index) s := rfl
  have hskip : On_Speech speech_index false s = s := rfl
  refine ⟨hplay, ?_, ?_, hskip, ?_, ?_, ?_⟩
  · rw [hplay, PlayAudio_log]
  · rw [hplay, PlayAudio_cursor]
  · rw [hskip]
  · rw [hskip]
  · rw [hskip]

/-! ## Runs of playback calls -/

theorem nextTransient_range (s : State) (h : 0 ≤ s.currentAudioTSource) :
    0 ≤ nextTransient s ∧ nextTransient s ≤ MAX_AUDIO_SOURCES - 2 := by
  unfold nextTransient
  simp only [MAX_AUDIO_SOURCES] at *
  split <;> omega

theorem Trigger_apply_audio_sources (env : Env) (t : Trigger) (s : State) :
    (t.apply env s).audio_sources = s.audio_sources := by
  cases t with
  | playAudio b => exact PlayAudio_audio_sources b s
  | soundEffect i v c h =>
    show (On_Sound_Effect env i v c h s).audio_sources = _
    rw [On_Sound_Effect_eq]
    split
    · rfl
    · exact PlayAudio_audio_sources _ s
  | speech i n =>
    show (On_Speech i n s).audio_sources = _
    rw [On_Speech_eq]
    split
    · exact PlayAudio_audio_sources _ s
    · rfl
  | playMusic m => exact (AudMix_PlayMusic_state m s).2.1

theorem Trigger_apply_soundEffect (env : Env) (i v c h : Int) (s : State) :
    (Trigger.soundEffect i v c h).apply env s =
      if i = env.VOC_NONE then s
      else PlayAudio (s.precacheAudioTable AUDIO_BUFFER_HOUSE_NONE i) s := rfl

theorem Trigger_apply_speech (env : Env) (i : Int) (n : Bool) (s : State) :
    (Trigger.speech i n).apply env s =
      if n then PlayAudio (s.speechPrecacheAudioTable i) s else s := rfl

theorem Trigger_apply_cursor (env : Env) (t : Trigger) (s : State)
    (h : 0 ≤ s.currentAudioTSource ∧ s.currentAudioTSource ≤ MAX_AUDIO_SOURCES - 1) :
    0 ≤ (t.apply env s).currentAudioTSource ∧
    (t.apply env s).currentAudioTSource ≤ MAX_AUDIO_SOURCES - 1 := by
  have hn := nextTransient_range s h.1
  have hplay : ∀ b, 0 ≤ (PlayAudio b s).currentAudioTSource ∧
      (PlayAudio b s).currentAudioTSource ≤ MAX_AUDIO_SOURCES - 1 := by
    intro b
    rw [PlayAudio_cursor]
    simp only [MAX_AUDIO_SOURCES] at *
    omega
  cases t with
  | playAudio b => exact hplay b
  | soundEffect i v c hs =>
    rw [Trigger_apply_soundEffect]
    split
    · exact h
    · exact hplay _
  | speech i n =>
    rw [Trigger_apply_speech]
    split
    · exact hplay _
    · exact h
  | playMusic m =>
    have e : (Trigger.playMusic m).apply env s = AudMix_PlayMusic m s := rfl
    rw [e, (AudMix_PlayMusic_state m s).2.2.2]
    exact h

/-- The source calls one trigger logs: all on `audio_sources[nextTransient s]` for a
transient trigger, all on `audio_sources[MAX_AUDIO_SOURCES - 1]` for music. -/
theorem Trigger_apply_log (env : Env) (t : Trigger) (s : State) :
    ∃ L, (t.apply env s).world.log = s.world.log ++ L ∧
      ∀ e ∈ L, e.source = some (s.audio_sources
        (if t.isMusic then MAX_AUDIO_SOURCES - 1 else nextTransient s)) := by
  have hplay : ∀ b, ∃ L, (PlayAudio b s).world.log = s.world.log ++ L ∧
      ∀ e ∈ L, e.source = some (s.audio_sources (nextTransient s)) := by
    intro b
    exact ⟨_, PlayAudio_log b s, by simp [Event.source]⟩
  have hnone : ∃ L, s.world.log = s.world.log ++ L ∧
      ∀ e ∈ L, e.source = some (s.audio_sources (nextTransient s)) :=
    ⟨[], by simp, by simp⟩
  cases t with
  | playAudio b => exact hplay b
  | soundEffect i v c h =>
    rw [Trigger_apply_soundEffect]
    split
    · exact hnone
    · exact hplay _
  | speech i n =>
    rw [Trigger_apply_speech]
    split
    · exact hplay _
    · exact hnone
  | playMusic m =>
    have e : (Trigger.playMusic m).apply env s = AudMix_PlayMusic m s := rfl
    rw [e]
    refine ⟨_, (AudMix_PlayMusic_log m s).trans (List.append_assoc _ _ _), ?_⟩
    intro e he
    simp only [Trigger.isMusic, if_true]
    rcases List.mem_append.mp he with h | h
    · split at h
      · simp at h; subst h; rfl
      · simp at h
    · simp at h
      rcases h with rfl | rfl | rfl <;> rfl

theorem runTriggers_invariant (env : Env) (ts : List Trigger) :
    ∀ s0 : State, 0 ≤ s0.currentAudioTSource ∧ s0.currentAudioTSource ≤ MAX_AUDIO_SOURCES - 1 →
    (0 ≤ (runTriggers env ts s0).currentAudioTSource ∧
      (runTriggers env ts s0).currentAudioTSource ≤ MAX_AUDIO_SOURCES - 1) ∧
    (runTriggers env ts s0).audio_sources = s0.audio_sources := by
  induction ts with
  | nil => intro s0 h; exact ⟨h, rfl⟩
  | cons t ts ih =>
    intro s0 h
    have := ih (t.apply env s0) (Trigger_apply_cursor env t s0 h)
    rw [Trigger_apply_audio_sources] at this
    exact this

/-- C11. In every state reached from a state with the cursor at 0 by any sequence of
`PlayAudio`, `On_Sound_Effect`, `On_Speech` and `AudMix_PlayMusic` calls: the cursor
lies in 0..MAX_AUDIO_SOURCES-1; the index the next transient trigger uses lies in
0..MAX_AUDIO_SOURCES-2; `audio_sources` is unchanged; every source call a transient
trigger makes is on `audio_sources[j]` for that index j, every source call
`AudMix_PlayMusic` makes is on `audio_sources[MAX_AUDIO_SOURCES-1]`. With the source
handles pairwise different, a transient trigger therefore never calls on the
reserved voice and music never calls on a transient voice. -/
theorem voices_partitioned (env : Env) (ts : List Trigger) (s0 : State) (t : Trigger)
    (hcursor : s0.currentAudioTSource = 0) :
    (0 ≤ (runTriggers env ts s0).currentAudioTSource ∧
      (runTriggers env ts s0).currentAudioTSource ≤ MAX_AUDIO_SOURCES - 1) ∧
    (0 ≤ nextTransient (runTriggers env ts s0) ∧
      nextTransient (runTriggers env ts s0) ≤ MAX_AUDIO_SOURCES - 2) ∧
    (runTriggers env ts s0).audio_sources = s0.audio_sources ∧
    ∃ L, (t.apply env (runTriggers env ts s0)).world.log
        = (runTriggers env ts s0).world.log ++ L ∧
      (t.isMusic = false → ∀ e ∈ L,
        e.source = some (s0.audio_sources (nextTransient (runTriggers env ts s0)))) ∧
      (t.isMusic = true → ∀ e ∈ L,
        e.source = some (s0.audio_sources (MAX_AUDIO_SOURCES - 1))) ∧
      ((∀ i j : Int, 0 ≤ i → i < j → j < MAX_AUDIO_SOURCES →
          s0.audio_sources i ≠ s0.audio_sources j) →
        (t.isMusic = false → ∀ e ∈ L,
          e.source ≠ some (s0.audio_sources (MAX_AUDIO_SOURCES - 1))) ∧
        (t.isMusic = true → ∀ e ∈ L, ∀ j : Int, 0 ≤ j → j ≤ MAX_AUDIO_SOURCES - 2 →
          e.source ≠ some (s0.audio_sources j))) := by
  have h0 : 0 ≤ s0.currentAudioTSource ∧ s0.currentAudioTSource ≤ MAX_AUDIO_SOURCES - 1 := by
    rw [hcursor]; decide
  obtain ⟨hrange, hsrc⟩ := runTriggers_invariant env ts s0 h0
  have hnext := nextTransient_range (runTriggers env ts s0) hrange.1
  obtain ⟨L, hL, hon⟩ := Trigger_apply_log env t (runTriggers env ts s0)
  rw [hsrc] at hon
  have htrans : t.isMusic = false → ∀ e ∈ L,
      e.source = some (s0.audio_sources (nextTransient (runTriggers env ts s0))) := by
    intro hm e he
    have := hon e he
    rw [hm] at this
    simpa using this
  have hmusic : t.isMusic = true → ∀ e ∈ L,
      e.source = some (s0.audio_sources (MAX_AUDIO_SOURCES - 1)) := by
    intro hm e he
    have := hon e he
    rw [hm] at this
    simpa using this
  refine ⟨hrange, hnext, hsrc, L, hL, htrans, hmusic, ?_⟩
  intro hinj
  constructor
  · intro hm e he
    rw [htrans hm e he]
    intro heq
    have hlt : nextTransient (runTriggers env ts s0) < MAX_AUDIO_SOURCES - 1 := by
      have := hnext.2
      simp only [MAX_AUDIO_SOURCES] at *
      omega
    exact hinj _ _ hnext.1 hlt (by decide) (Option.some.inj heq)
  · intro hm e he j hj0 hj
    rw [hmusic hm e he]
    intro heq
    have hlt : j < MAX_AUDIO_SOURCES - 1 := by
      simp only [MAX_AUDIO_SOURCES] at *
      omega
    exact hinj _ _ hj0 hlt (by decide) (Option.some.inj heq).symm

/-- C11, witness: a run of two effects, a track and a speech line from the state at
program start, then one more effect. -/
theorem voices_partitioned_witness :
    0 ≤ (runTriggers silentEnv
          [.soundEffect 0 0 0 0, .soundEffect 0 0 0 0, .playMusic 0, .speech 0 true]
          State.initial).currentAudioTSource ∧
    (runTriggers silentEnv
          [.soundEffect 0 0 0 0, .soundEffect 0 0 0 0, .playMusic 0, .speech 0 true]
          State.initial).currentAudioTSource ≤ MAX_AUDIO_SOURCES - 1 :=
  (voices_partitioned silentEnv
    [.soundEffect 0 0 0 0, .soundEffect 0 0 0 0, .playMusic 0, .speech 0 true]
    State.initial (.soundEffect 0 0 0 0) rfl).1

/-! ## Empty payload and host memory -/

/-- C19. For every file whose header, format and data tags are accepted and whose
declared data size is 0, whatever follows the data sub-record header: the read of one
item of size 0 returns 0, `loadWavFile` throws at line 119 and does not return true;
no device buffer is created and the caller's record is unchanged. -/
theorem loadWavFile_empty_payload (fs : FileSystem) (u : Uninit) (filename : String)
    (audioBuffer : AudioBuffer_t) (w : World) (content : List Nat)
    (hfile : fs filename = some content)
    (hriff : (readHeaders u filename content).riffAccepted = true)
    (hformat : (readHeaders u filename content).formatAccepted = true)
    (hdata : (readHeaders u filename content).dataAccepted = true)
    (hzero : subChunk2Size (readHeaders u filename content).wave_data = 0) :
    (fread (u.data.take 0) 0 1 (readHeaders u filename content).soundFile).2.1 = 0 ∧
    (loadWavFile fs u filename audioBuffer w).outcome
      = .raised (throwLiteral "error loading WAVE data into struct!") ∧
    (loadWavFile fs u filename audioBuffer w).outcome ≠ .returned true ∧
    (loadWavFile fs u filename audioBuffer w).world.generated = w.generated ∧
    (loadWavFile fs u filename audioBuffer w).world.log
      = w.log ++ [.fopen filename true, .newArray 0] ∧
    (∀ e ∈ (loadWavFile fs u filename audioBuffer w).world.log, e ∉ w.log → isBufferCall e = false) ∧
    (loadWavFile fs u filename audioBuffer w).audioBuffer = audioBuffer := by
  have hres : loadWavFile fs u filename audioBuffer w =
      ⟨.raised (throwLiteral "error loading WAVE data into struct!"), audioBuffer,
       (w.emit (.fopen filename true)).emit (.newArray 0)⟩ := by
    rw [loadWavFile_eq fs u filename audioBuffer w content hfile]
    dsimp only
    rw [hriff, hformat, hdata, hzero]
    simp
  rw [hres]
  refine ⟨rfl, rfl, by simp, rfl, by simp [World.emit], ?_, rfl⟩
  intro e he hnot
  simp only [World.emit, List.append_assoc, List.mem_append] at he
  rcases he with h | h | h
  · exact absurd h hnot
  · simp at h; subst h; rfl
  · simp at h; subst h; rfl

/-- C19, witness: a container that declares 0 payload bytes and is followed by three
bytes. -/
theorem loadWavFile_empty_payload_witness :
    subChunk2Size (readHeaders noGarbage "sound/empty.wav" emptyPayloadWav).wave_data = 0 ∧
    (loadWavFile (fun _ => some emptyPayloadWav) noGarbage "sound/empty.wav" AudioBuffer_t.zero
        ⟨[], 0⟩).outcome ≠ .returned true ∧
    (loadWavFile (fun _ => some emptyPayloadWav) noGarbage "sound/empty.wav" AudioBuffer_t.zero
        ⟨[], 0⟩).world.generated = 0 :=
  have h := loadWavFile_empty_payload (fun _ => some emptyPayloadWav) noGarbage "sound/empty.wav"
    AudioBuffer_t.zero ⟨[], 0⟩ emptyPayloadWav rfl (by decide) (by decide) (by decide) (by decide)
  ⟨by decide, h.2.2.1, h.2.2.2.1⟩

theorem hostBuffersLive_append (l1 l2 : List Event) :
    hostBuffersLive (l1 ++ l2) = hostBuffersLive l1 + hostBuffersLive l2 := by
  simp [hostBuffersLive]

/-- C18, as stated, fails: the load of `sound/bleep.wav` returns true after the
device transfer with the host buffer it allocated still allocated: one host buffer
more than before the call. -/
theorem loadWavFile_host_buffer_counterexample :
    (loadWavFile bleepFiles noGarbage "sound/bleep.wav" AudioBuffer_t.zero ⟨[], 0⟩).outcome
      = .returned true ∧
    hostBuffersLive ([] : List Event) = 0 ∧
    hostBuffersLive
      (loadWavFile bleepFiles noGarbage "sound/bleep.wav" AudioBuffer_t.zero ⟨[], 0⟩).world.log
      = 1 ∧
    (loadWavFile bleepFiles noGarbage "sound/bleep.wav" AudioBuffer_t.zero ⟨[], 0⟩).world.log =
      [.fopen "sound/bleep.wav" true, .newArray 4, .alGenBuffers 1,
       .alBufferData 1 AL_FORMAT_MONO8 [128, 255, 128, 0] 4 8000, .fclose "sound/bleep.wav"] := by
  decide

/-- The host buffers after a call of `loadWavFile` on a file that was opened: one
more than before when the allocation of line 116 was reached, as many as before
otherwise. -/
theorem loadWavFile_host_buffer_opened (fs : FileSystem) (u : Uninit) (filename : String)
    (audioBuffer : AudioBuffer_t) (w : World) (content : List Nat)
    (hfile : fs filename = some content) :
    ((readHeaders u filename content).riffAccepted = true →
      (readHeaders u filename content).formatAccepted = true →
      (readHeaders u filename content).dataAccepted = true →
      0 ≤ subChunk2Size (readHeaders u filename content).wave_data →
      ((loadWavFile fs u filename audioBuffer w).outcome = .returned true ∨
        (loadWavFile fs u filename audioBuffer w).outcome
          = .raised (throwLiteral "error loading WAVE data into struct!")) ∧
      hostBuffersLive (loadWavFile fs u filename audioBuffer w).world.log
        = hostBuffersLive w.log + 1) ∧
    (¬ ((readHeaders u filename content).riffAccepted = true ∧
        (readHeaders u filename content).formatAccepted = true ∧
        (readHeaders u filename content).dataAccepted = true ∧
        0 ≤ subChunk2Size (readHeaders u filename content).wave_data) →
      hostBuffersLive (loadWavFile fs u filename audioBuffer w).world.log
        = hostBuffersLive w.log) := by
  rw [loadWavFile_eq fs u filename audioBuffer w content hfile]
  dsimp only
  constructor
  · intro hriff hformat hdata hsize
    rw [hriff, hformat, hdata]
    simp only [Bool.not_true, if_false, Bool.false_eq_true]
    rw [if_neg (by omega)]
    split
    · exact ⟨Or.inr rfl, by simp [World.emit, hostBuffersLive_append, hostBuffersLive, isNewArray]⟩
    · exact ⟨Or.inl rfl, by simp [hostBuffersLive_append, hostBuffersLive, isNewArray]⟩
  · intro hnot
    split
    · simp [World.emit, hostBuffersLive_append, hostBuffersLive, isNewArray]
    · split
      · simp [World.emit, hostBuffersLive_append, hostBuffersLive, isNewArray]
      · split
        · simp [World.emit, hostBuffersLive_append, hostBuffersLive, isNewArray]
        · split
          · simp [World.emit, hostBuffersLive_append, hostBuffersLive, isNewArray]
          · exfalso
            apply hnot
            simp_all

/-- C18 (as amended). On every exit path of `loadWavFile` on which the host payload
buffer was allocated (the three tags accepted and the declared size not negative:
success after the device transfer, and failure by short read) the buffer is still
allocated when the call is left: the number of host buffers allocated after the call
is the number before plus one. On every other exit path (file not opened, a tag
rejected, negative declared size) the number is unchanged. -/
theorem loadWavFile_host_buffer_kept (fs : FileSystem) (u : Uninit) (filename : String)
    (audioBuffer : AudioBuffer_t) (w : World) :
    (fs filename = none →
      (loadWavFile fs u filename audioBuffer w).outcome = .returned false ∧
      hostBuffersLive (loadWavFile fs u filename audioBuffer w).world.log
        = hostBuffersLive w.log) ∧
    (∀ content, fs filename = some content →
      ((readHeaders u filename content).riffAccepted = true →
        (readHeaders u filename content).formatAccepted = true →
        (readHeaders u filename content).dataAccepted = true →
        0 ≤ subChunk2Size (readHeaders u filename content).wave_data →
        ((loadWavFile fs u filename audioBuffer w).outcome = .returned true ∨
          (loadWavFile fs u filename audioBuffer w).outcome
            = .raised (throwLiteral "error loading WAVE data into struct!")) ∧
        hostBuffersLive (loadWavFile fs u filename audioBuffer w).world.log
          = hostBuffersLive w.log + 1) ∧
      (¬ ((readHeaders u filename content).riffAccepted = true ∧
          (readHeaders u filename content).formatAccepted = true ∧
          (readHeaders u filename content).dataAccepted = true ∧
          0 ≤ subChunk2Size (readHeaders u filename content).wave_data) →
        hostBuffersLive (loadWavFile fs u filename audioBuffer w).world.log
          = hostBuffersLive w.log)) := by
  constructor
  · intro hnone
    rw [loadWavFile_missing fs u filename audioBuffer w hnone]
    exact ⟨rfl, by simp [World.emit, hostBuffersLive_append, hostBuffersLive, isNewArray]⟩
  · intro content hfile
    exact loadWavFile_host_buffer_opened fs u filename audioBuffer w content hfile

/-- C18, witness: the truncated container, where the payload read is short (one
buffer more), a file of twelve zero bytes, whose header is rejected, and a path with
no file (as many buffers as before). -/
theorem loadWavFile_host_buffer_kept_witness :
    hostBuffersLive (loadWavFile (fun _ => some truncatedWav) noGarbage "sound/cut.wav"
        AudioBuffer_t.zero ⟨[], 0⟩).world.log = hostBuffersLive ([] : List Event) + 1 ∧
    hostBuffersLive (loadWavFile (fun _ => some zeroFile) noGarbage "sound/zero.wav"
        AudioBuffer_t.zero ⟨[], 0⟩).world.log = hostBuffersLive ([] : List Event) ∧
    hostBuffersLive (loadWavFile (fun _ => none) noGarbage "sound/none.wav"
        AudioBuffer_t.zero ⟨[], 0⟩).world.log = hostBuffersLive ([] : List Event) :=
  ⟨(((loadWavFile_host_buffer_kept (fun _ => some truncatedWav) noGarbage "sound/cut.wav"
        AudioBuffer_t.zero ⟨[], 0⟩).2 truncatedWav rfl).1
      (by decide) (by decide) (by decide) (by decide)).2,
   ((loadWavFile_host_buffer_kept (fun _ => some zeroFile) noGarbage "sound/zero.wav"
        AudioBuffer_t.zero ⟨[], 0⟩).2 zeroFile rfl).2 (by decide),
   ((loadWavFile_host_buffer_kept (fun _ => none) noGarbage "sound/none.wav"
        AudioBuffer_t.zero ⟨[], 0⟩).1 rfl).2⟩

/-! ## The outer-header check -/

/-- The header records of a file made of any 12 bytes, a format sub-record of
declared size 16 and a data sub-record header. -/
theorem readHeaders_layout (u : Uninit) (filename : String) (hdr : List Nat)
    (hlen : hdr.length = 12) (a c r br ba bits n : Nat) (tail : List Nat) :
    readHeaders u filename (hdr ++ (formatRecord a c r br ba bits ++ (dataRecord n ++ tail))) =
      ⟨hdr ++ u.riff_header.drop 12,
       formatRecord a c r br ba bits ++ u.wave_format.drop 24,
       dataRecord n ++ u.wave_data.drop 8,
       ⟨filename, hdr ++ (formatRecord a c r br ba bits ++ (dataRecord n ++ tail)), 44⟩⟩ := by
  unfold readHeaders
  dsimp only
  have e1 := fread_exact u.riff_header hdr
    (formatRecord a c r br ba bits ++ (dataRecord n ++ tail)) filename
    (hdr ++ (formatRecord a c r br ba bits ++ (dataRecord n ++ tail))) 0 sizeof_RIFF_Header
    rfl hlen (by decide)
  rw [e1]
  have e2 := fread_exact u.wave_format (formatRecord a c r br ba bits)
    (dataRecord n ++ tail) filename
    (hdr ++ (formatRecord a c r br ba bits ++ (dataRecord n ++ tail)))
    (0 + sizeof_RIFF_Header) sizeof_WAVE_Format
    (List.drop_left' hlen) (formatRecord_length a c r br ba bits) (by decide)
  dsimp only
  rw [e2]
  dsimp only
  rw [subChunkSize_formatRecord]
  rw [if_neg (by decide)]
  have e3 := fread_exact u.wave_data (dataRecord n) tail filename
    (hdr ++ (formatRecord a c r br ba bits ++ (dataRecord n ++ tail)))
    (0 + sizeof_RIFF_Header + sizeof_WAVE_Format) sizeof_WAVE_Data
    (by
      rw [← List.append_assoc]
      exact List.drop_left' (by simp [hlen, formatRecord_length, sizeof_RIFF_Header,
        sizeof_WAVE_Format]))
    (dataRecord_length n) (by decide)
  rw [e3]
  rfl

/-- The result of `loadWavFile` on a file of that layout whose outer header passes
the check, with a declared data size in 1..2^31-1 covered by the bytes that follow. -/
theorem loadWavFile_layout (fs : FileSystem) (u : Uninit) (filename : String)
    (ab : AudioBuffer_t) (w : World) (hdr : List Nat) (hlen : hdr.length = 12)
    (a c r br ba bits n : Nat) (tail : List Nat)
    (hfile : fs filename = some (hdr ++ (formatRecord a c r br ba bits ++ (dataRecord n ++ tail))))
    (haccept : (tagDiffers (hdr ++ u.riff_header.drop 12) 0 'R' 'I' 'F' 'F' &&
      tagDiffers (hdr ++ u.riff_header.drop 12) 8 'W' 'A' 'V' 'E') = false)
    (h1 : 1 ≤ n) (h2 : n < 2 ^ 31) (h3 : n ≤ tail.length) :
    loadWavFile fs u filename ab w =
      ⟨.returned true,
       ⟨w.generated + 1, n, toSigned 32 r,
        selectFormat (formatRecord a c r br ba bits ++ u.wave_format.drop 24) ab.format⟩,
       ⟨w.log ++ [.fopen filename true, .newArray n, .alGenBuffers (w.generated + 1),
          .alBufferData (w.generated + 1)
            (selectFormat (formatRecord a c r br ba bits ++ u.wave_format.drop 24) ab.format)
            (tail.take n) n (toSigned 32 r),
          .fclose filename], w.generated + 1⟩⟩ := by
  rw [loadWavFile_eq fs u filename ab w _ hfile, readHeaders_layout u filename hdr hlen]
  have hs : subChunk2Size (dataRecord n ++ List.drop 8 u.wave_data) = (n : Int) := by
    rw [subChunk2Size_dataRecord, toSigned32_small n h2]
  have hd : List.drop 44 (hdr ++ (formatRecord a c r br ba bits ++ (dataRecord n ++ tail)))
      = tail := by
    rw [← List.append_assoc, ← List.append_assoc]
    exact List.drop_left' (by simp [hlen, formatRecord_length, dataRecord_length])
  have hl : (hdr ++ (formatRecord a c r br ba bits ++ (dataRecord n ++ tail))).length
      = 44 + tail.length := by
    simp only [List.length_append, hlen, formatRecord_length, dataRecord_length]
    omega
  simp only [Headers.riffAccepted, Headers.formatAccepted, Headers.dataAccepted, Headers.remaining,
    haccept, tagDiffers_formatRecord, tagDiffers_dataRecord, hs, hl,
    sampleRate_formatRecord, hd, Bool.not_false, Bool.not_true, Int.toNat_ofNat]
  have c1 : ¬ ((n : Int) < 0) := by omega
  simp only [c1, if_false]
  have c2 : ¬ (n = 0 ∨ 44 + tail.length - 44 < n) := by omega
  simp only [Int.natCast_eq_zero, c2, if_false]
  simp

theorem length_four (l : List Nat) (h : l.length = 4) :
    ∃ b0 b1 b2 b3, l = [b0, b1, b2, b3] := by
  rcases l with _ | ⟨b0, _ | ⟨b1, _ | ⟨b2, _ | ⟨b3, _ | ⟨b4, rest⟩⟩⟩⟩⟩
  all_goals simp at h
  exact ⟨b0, b1, b2, b3, rfl⟩

/-- C12. The check of lines 87-95 throws exactly when the group tag differs from
"RIFF" and the subtype tag differs from "WAVE" at the same time. So a file that is
otherwise well-formed (format sub-record of declared size 16, data sub-record with a
declared size in 1..2^31-1 covered by the payload) and has the group tag right or the
subtype tag right, the other one being any four bytes, is accepted: `loadWavFile`
returns true and fills the record. -/
theorem riff_check_rejects_only_both_wrong (fs : FileSystem) (u : Uninit) (filename : String)
    (audioBuffer : AudioBuffer_t) (w : World) :
    (∀ content, fs filename = some content →
      ((loadWavFile fs u filename audioBuffer w).outcome
          = .raised (throwLiteral "Invalid RIFF or WAVE Header") ↔
        (tagDiffers (readHeaders u filename content).riff_header 0 'R' 'I' 'F' 'F' = true ∧
         tagDiffers (readHeaders u filename content).riff_header 8 'W' 'A' 'V' 'E' = true))) ∧
    (∀ (group subtype : List Nat)
       (chunkSize audioFormat channels rate byteRate blockAlign bits N : Nat) (tail : List Nat),
      fs filename = some (wavFileWith group subtype chunkSize audioFormat channels rate byteRate
        blockAlign bits N tail) →
      group.length = 4 → subtype.length = 4 →
      (group = tagBytes 'R' 'I' 'F' 'F' ∨ subtype = tagBytes 'W' 'A' 'V' 'E') →
      1 ≤ N → N < 2 ^ 31 → N ≤ tail.length →
      (loadWavFile fs u filename audioBuffer w).outcome = .returned true ∧
      (loadWavFile fs u filename audioBuffer w).audioBuffer.size = N ∧
      (loadWavFile fs u filename audioBuffer w).audioBuffer.frequency = toSigned 32 rate) := by
  constructor
  · intro content hfile
    rw [loadWavFile_eq fs u filename audioBuffer w content hfile]
    dsimp only
    unfold Headers.riffAccepted
    constructor
    · intro h
      by_cases hb : (tagDiffers (readHeaders u filename content).riff_header 0 'R' 'I' 'F' 'F' &&
          tagDiffers (readHeaders u filename content).riff_header 8 'W' 'A' 'V' 'E') = true
      · simpa using hb
      · exfalso
        simp only [hb, Bool.not_not, Bool.false_eq_true, if_false] at h
        split_ifs at h
        all_goals simp [throwLiteral] at h
    · intro h
      simp [h.1, h.2]
  · intro group subtype chunkSize audioFormat channels rate byteRate blockAlign bits N tail
      hfile hg ht hone hN hlong hpayload
    have hlen : (group ++ leBytes 4 chunkSize ++ subtype).length = 12 := by
      simp [hg, ht, leBytes]
    have haccept : (tagDiffers ((group ++ leBytes 4 chunkSize ++ subtype)
          ++ u.riff_header.drop 12) 0 'R' 'I' 'F' 'F' &&
        tagDiffers ((group ++ leBytes 4 chunkSize ++ subtype) ++ u.riff_header.drop 12)
          8 'W' 'A' 'V' 'E') = false := by
      obtain ⟨g0, g1, g2, g3, rfl⟩ := length_four group hg
      obtain ⟨t0, t1, t2, t3, rfl⟩ := length_four subtype ht
      rcases hone with h | h
      · have : tagDiffers (([g0, g1, g2, g3] ++ leBytes 4 chunkSize ++ [t0, t1, t2, t3])
            ++ u.riff_header.drop 12) 0 'R' 'I' 'F' 'F' = false := by
          rw [h]; simp [tagBytes, tagDiffers, byteAt]
        rw [this, Bool.false_and]
      · have : tagDiffers (([g0, g1, g2, g3] ++ leBytes 4 chunkSize ++ [t0, t1, t2, t3])
            ++ u.riff_header.drop 12) 8 'W' 'A' 'V' 'E' = false := by
          rw [h]; simp [tagBytes, tagDiffers, byteAt, leBytes]
        rw [this, Bool.and_false]
    rw [loadWavFile_layout fs u filename audioBuffer w _ hlen _ _ _ _ _ _ _ _ hfile haccept
      hN hlong hpayload]
    exact ⟨rfl, rfl, rfl⟩

/-- C12, witness: group tag "RIFX" with subtype "WAVE", and group tag "RIFF" with
subtype "AVI ". -/
theorem riff_check_rejects_only_both_wrong_witness :
    (loadWavFile (fun _ => some wrongGroupWav) noGarbage "sound/rifx.wav" AudioBuffer_t.zero
        ⟨[], 0⟩).outcome = .returned true ∧
    (loadWavFile (fun _ => some wrongSubtypeWav) noGarbage "sound/avi.wav" AudioBuffer_t.zero
        ⟨[], 0⟩).outcome = .returned true :=
  ⟨((riff_check_rejects_only_both_wrong (fun _ => some wrongGroupWav) noGarbage "sound/rifx.wav"
      AudioBuffer_t.zero ⟨[], 0⟩).2 (tagBytes 'R' 'I' 'F' 'X') (tagBytes 'W' 'A' 'V' 'E')
      40 1 1 8000 8000 1 8 4 [128, 255, 128, 0] rfl (by decide) (by decide)
      (Or.inr rfl) (by decide) (by decide) (by decide)).1,
   ((riff_check_rejects_only_both_wrong (fun _ => some wrongSubtypeWav) noGarbage "sound/avi.wav"
      AudioBuffer_t.zero ⟨[], 0⟩).2 (tagBytes 'R' 'I' 'F' 'F') (tagBytes 'A' 'V' 'I' ' ')
      40 1 1 8000 8000 1 8 4 [128, 255, 128, 0] rfl (by decide) (by decide)
      (Or.inl rfl) (by decide) (by decide) (by decide)).1⟩

/-! ## Unsupported sample formats -/

theorem toSigned16_eq_iff (v : Nat) (k : Nat) (hv : v < 2 ^ 16) (hk : k < 2 ^ 15) :
    toSigned 16 v = (k : Int) ↔ v = k := by
  unfold toSigned
  have e : v % 2 ^ 16 = v := Nat.mod_eq_of_lt hv
  rw [e]
  simp only [show (16 - 1 : Nat) = 15 from rfl]
  split <;> omega

theorem selectFormat_unsupported (a c r br ba bits : Nat) (g : List Nat) (old : Int)
    (hc : c < 2 ^ 16) (hb : bits < 2 ^ 16)
    (hpair : ¬ ((c = 1 ∨ c = 2) ∧ (bits = 8 ∨ bits = 16))) :
    selectFormat (formatRecord a c r br ba bits ++ g) old = old := by
  unfold selectFormat
  rw [numChannels_formatRecord, bitsPerSample_formatRecord]
  have c1 := toSigned16_eq_iff c 1 hc (by decide)
  have c2 := toSigned16_eq_iff c 2 hc (by decide)
  have b8 := toSigned16_eq_iff bits 8 hb (by decide)
  have b16 := toSigned16_eq_iff bits 16 hb (by decide)
  simp only [Nat.cast_one, Nat.cast_ofNat] at c1 c2 b8 b16
  simp only [c1, c2, b8, b16]
  split_ifs <;> first | rfl | (exfalso; apply hpair; omega)

/-- C14. For every container of the standard layout (declared data size N in
1..2^31-1, covered by the payload) whose channel count and bits per sample, as 2-byte
fields, are not one of (1,8), (1,16), (2,8), (2,16): `loadWavFile` returns true, sets
size and frequency, leaves the format field with the value it had before the call,
and submits the payload to the device with that old format value. -/
theorem loadWavFile_unsupported_format (fs : FileSystem) (u : Uninit) (filename : String)
    (audioBuffer : AudioBuffer_t) (w : World)
    (chunkSize audioFormat channels rate byteRate blockAlign bits N : Nat) (tail : List Nat)
    (hfile : fs filename =
      some (wavFile chunkSize audioFormat channels rate byteRate blockAlign bits N tail))
    (hchannels : channels < 2 ^ 16) (hbits : bits < 2 ^ 16)
    (hpair : ¬ ((channels = 1 ∨ channels = 2) ∧ (bits = 8 ∨ bits = 16)))
    (hN : 1 ≤ N) (hlong : N < 2 ^ 31) (hpayload : N ≤ tail.length) :
    (loadWavFile fs u filename audioBuffer w).outcome = .returned true ∧
    (loadWavFile fs u filename audioBuffer w).audioBuffer.format = audioBuffer.format ∧
    (loadWavFile fs u filename audioBuffer w).audioBuffer.size = N ∧
    (loadWavFile fs u filename audioBuffer w).audioBuffer.frequency = toSigned 32 rate ∧
    (loadWavFile fs u filename audioBuffer w).audioBuffer.buffer = w.generated + 1 ∧
    (loadWavFile fs u filename audioBuffer w).world.log = w.log ++
      [.fopen filename true, .newArray N, .alGenBuffers (w.generated + 1),
       .alBufferData (w.generated + 1) audioBuffer.format (tail.take N) N (toSigned 32 rate),
       .fclose filename] := by
  rw [loadWavFile_wavFile fs u filename audioBuffer w _ _ _ _ _ _ _ _ _ hfile hN hlong hpayload]
  dsimp only
  rw [selectFormat_unsupported audioFormat channels rate byteRate blockAlign bits
    (u.wave_format.drop 24) audioBuffer.format hchannels hbits hpair]
  exact ⟨rfl, rfl, rfl, rfl, rfl, rfl⟩

/-- C14, witness: one channel of 24 bits per sample, loaded into a record whose
format field held 7. -/
theorem loadWavFile_unsupported_format_witness :
    (loadWavFile (fun _ => some mono24Wav) noGarbage "sound/m24.wav" ⟨0, 0, 0, 7⟩ ⟨[], 0⟩).outcome
      = .returned true ∧
    (loadWavFile (fun _ => some mono24Wav) noGarbage "sound/m24.wav" ⟨0, 0, 0, 7⟩
      ⟨[], 0⟩).audioBuffer.format = 7 :=
  have h := loadWavFile_unsupported_format (fun _ => some mono24Wav) noGarbage "sound/m24.wav"
    ⟨0, 0, 0, 7⟩ ⟨[], 0⟩ 40 1 1 8000 24000 3 24 3 [128, 255, 128] rfl (by decide) (by decide)
    (by decide) (by decide) (by decide) (by decide)
  ⟨h.1, h.2.1⟩

/-! ## Where the data sub-record header is read -/

/-- The byte at index `k` of the memory a `fread` of one item wrote: a byte of the
file where the read reached, the old content elsewhere. -/
theorem byteAt_fread (old : List Nat) (n : Nat) (f : FILE) (k : Nat) :
    byteAt (fread old n 1 f).1 k =
      if k < min n (f.content.length - f.pos) then byteAt f.content (f.pos + k)
      else byteAt old k := by
  unfold fread byteAt
  simp only [Nat.mul_one, List.getD_eq_getElem?_getD]
  have hl : ((f.content.drop f.pos).take n).length = min n (f.content.length - f.pos) := by
    simp [List.length_take, List.length_drop]
  split
  · rename_i hk
    rw [List.getElem?_append_left (by rw [hl]; exact hk),
      List.getElem?_take_of_lt (by omega), List.getElem?_drop]
  · rename_i hk
    rw [List.getElem?_append_right (by rw [hl]; omega), List.getElem?_drop, hl]
    congr 2
    omega

/-- The data record `loadWavFile` checks is the one read at `dataHeaderOffset`. -/
theorem readHeaders_wave_data (u : Uninit) (filename : String) (content : List Nat) :
    (readHeaders u filename content).wave_data =
      (fread u.wave_data sizeof_WAVE_Data 1
        ⟨filename, content, dataHeaderOffset u filename content⟩).1 := by
  unfold readHeaders dataHeaderOffset
  dsimp only
  have hn : (fread u.wave_format sizeof_WAVE_Format 1
      (fread u.riff_header sizeof_RIFF_Header 1 ⟨filename, content, 0⟩).2.2).2.2.name
      = filename := rfl
  have hc : (fread u.wave_format sizeof_WAVE_Format 1
      (fread u.riff_header sizeof_RIFF_Header 1 ⟨filename, content, 0⟩).2.2).2.2.content
      = content := rfl
  generalize fread u.wave_format sizeof_WAVE_Format 1
      (fread u.riff_header sizeof_RIFF_Header 1 ⟨filename, content, 0⟩).2.2 = r2 at hn hc
  obtain ⟨d, k, ⟨nm, ct, ps⟩⟩ := r2
  dsimp only at hn hc
  subst hn hc
  split <;> rfl

/-- The position after the first two reads of a file of at least 36 bytes. -/
theorem dataHeaderOffset_eq (u : Uninit) (filename : String) (content : List Nat)
    (hlen : 36 ≤ content.length) :
    dataHeaderOffset u filename content =
      if subChunkSize (readHeaders u filename content).wave_format > 16 then 38 else 36 := by
  unfold readHeaders dataHeaderOffset
  dsimp only
  have p1 : (fread u.riff_header sizeof_RIFF_Header 1 ⟨filename, content, 0⟩).2.2.pos = 12 := by
    simp only [fread, sizeof_RIFF_Header, List.length_take, List.length_drop]
    omega
  have p2 : (fread u.wave_format sizeof_WAVE_Format 1
      (fread u.riff_header sizeof_RIFF_Header 1 ⟨filename, content, 0⟩).2.2).2.2.pos = 36 := by
    have hc : (fread u.riff_header sizeof_RIFF_Header 1 ⟨filename, content, 0⟩).2.2.content
        = content := rfl
    generalize fread u.riff_header sizeof_RIFF_Header 1 ⟨filename, content, 0⟩ = r1 at p1 hc
    simp only [fread, sizeof_WAVE_Format, List.length_take, List.length_drop, p1, hc]
    omega
  generalize fread u.riff_header sizeof_RIFF_Header 1 ⟨filename, content, 0⟩ = r1 at p2
  generalize fread u.wave_format sizeof_WAVE_Format 1 r1.2.2 = r2 at p2
  split
  · simp [fseekCur, sizeof_short, p2]
  · exact p2

/-- C13, as stated, fails: the 16-byte file "RIFF....WAVEfmt " passes the header and
format-tag checks, and the data sub-record header is then read at offset 16, the end
of the file, neither 36 nor 38. -/
theorem data_header_offset_counterexample :
    (readHeaders noGarbage "sound/short.wav" sixteenBytes).riffAccepted = true ∧
    (readHeaders noGarbage "sound/short.wav" sixteenBytes).formatAccepted = true ∧
    subChunkSize (readHeaders noGarbage "sound/short.wav" sixteenBytes).wave_format ≤ 16 ∧
    dataHeaderOffset noGarbage "sound/short.wav" sixteenBytes = 16 := by
  decide

/-- C13 (as amended). For every file of at least 36 bytes, `loadWavFile` reads the
8-byte data sub-record header at byte offset 36 when the declared format sub-record
size, as a signed 32-bit value, is at most 16 and at byte offset 38 when it is
greater: the skip is 2 bytes for every declared size above 16. -/
theorem data_header_offset (u : Uninit) (filename : String) (content : List Nat)
    (hlen : 36 ≤ content.length) :
    (subChunkSize (readHeaders u filename content).wave_format ≤ 16 →
      dataHeaderOffset u filename content = 36) ∧
    (subChunkSize (readHeaders u filename content).wave_format > 16 →
      dataHeaderOffset u filename content = 38) ∧
    (readHeaders u filename content).wave_data =
      (fread u.wave_data sizeof_WAVE_Data 1
        ⟨filename, content, dataHeaderOffset u filename content⟩).1 ∧
    subChunkSize (readHeaders u filename content).wave_format = longAt content 16 := by
  have h := dataHeaderOffset_eq u filename content hlen
  refine ⟨fun hle => ?_, fun hgt => ?_, readHeaders_wave_data u filename content, ?_⟩
  · rw [h, if_neg (by omega)]
  · rw [h, if_pos hgt]
  · have p1 : (fread u.riff_header sizeof_RIFF_Header 1 ⟨filename, content, 0⟩).2.2
        = ⟨filename, content, 12⟩ := by
      simp only [fread, sizeof_RIFF_Header, List.length_take, List.length_drop]
      congr 1
      omega
    have hb : ∀ k, k < 24 → byteAt (readHeaders u filename content).wave_format k
        = byteAt content (12 + k) := by
      intro k hk
      unfold readHeaders
      dsimp only
      rw [p1, byteAt_fread, if_pos]
      simp only [sizeof_WAVE_Format]
      omega
    unfold subChunkSize longAt
    simp only [leNat]
    rw [hb 4 (by decide), hb 5 (by decide), hb 6 (by decide), hb 7 (by decide)]

/-- C13, witness: declared format sizes 16, 18 and 40 give the offsets 36, 38, 38. -/
theorem data_header_offset_witness :
    dataHeaderOffset noGarbage "sound/bleep.wav" bleepWav = 36 ∧
    dataHeaderOffset noGarbage "sound/ext.wav" extendedWav = 38 ∧
    dataHeaderOffset noGarbage "sound/ext.wav" extensibleWav = 38 :=
  ⟨(data_header_offset noGarbage "sound/bleep.wav" bleepWav (by decide)).1 (by decide),
   (data_header_offset noGarbage "sound/ext.wav" extendedWav (by decide)).2.1 (by decide),
   (data_header_offset noGarbage "sound/ext.wav" extensibleWav (by decide)).2.1 (by decide)⟩

/-! ## Fields the parser never looks at -/

theorem byteAt_of_length_le (l : List Nat) (i : Nat) (h : l.length ≤ i) : byteAt l i = 0 := by
  unfold byteAt
  simp [List.getD_eq_getElem?_getD, List.getElem?_eq_none h]

theorem sameButIgnored_spec (f g : List Nat) (h : sameButIgnored f g = true) :
    f.length = g.length ∧ ∀ i, ignoredOffset i = false → byteAt f i = byteAt g i := by
  unfold sameButIgnored at h
  simp only [Bool.and_eq_true, beq_iff_eq, List.all_eq_true, List.mem_range, Bool.or_eq_true] at h
  refine ⟨h.1, fun i hi => ?_⟩
  by_cases hlt : i < f.length
  · rcases h.2 i hlt with h' | h'
    · rw [hi] at h'; exact absurd h' (by decide)
    · exact h'
  · rw [byteAt_of_length_le f i (by omega), byteAt_of_length_le g i (by omega)]

/-- Two lists of the same length with the same bytes from offset `p` on have the
same tail from `p`. -/
theorem drop_eq_of_agree (f g : List Nat) (p : Nat) (hlen : f.length = g.length)
    (h : ∀ i, p ≤ i → byteAt f i = byteAt g i) : f.drop p = g.drop p := by
  apply List.ext_getElem?
  intro i
  rw [List.getElem?_drop, List.getElem?_drop]
  by_cases hlt : p + i < f.length
  · have hg : p + i < g.length := by omega
    have := h (p + i) (by omega)
    unfold byteAt at this
    simp only [List.getD_eq_getElem?_getD, List.getElem?_eq_getElem hlt,
      List.getElem?_eq_getElem hg, Option.getD_some] at this
    rw [List.getElem?_eq_getElem hlt, List.getElem?_eq_getElem hg, this]
  · rw [List.getElem?_eq_none (by omega), List.getElem?_eq_none (by omega)]

theorem fread_stream (old : List Nat) (n : Nat) (f : FILE) :
    (fread old n 1 f).2.2 = ⟨f.name, f.content, f.pos + min n (f.content.length - f.pos)⟩ := by
  simp [fread, List.length_take, List.length_drop]

theorem readHeaders_riff_header (u : Uninit) (filename : String) (content : List Nat) :
    (readHeaders u filename content).riff_header =
      (fread u.riff_header sizeof_RIFF_Header 1 ⟨filename, content, 0⟩).1 := rfl

theorem readHeaders_wave_format (u : Uninit) (filename : String) (content : List Nat) :
    (readHeaders u filename content).wave_format =
      (fread u.wave_format sizeof_WAVE_Format 1
        ⟨filename, content, min 12 content.length⟩).1 := by
  unfold readHeaders
  dsimp only
  rw [fread_stream]
  simp [sizeof_RIFF_Header]

/-- The offset of the data sub-record read, for any file: the bytes the first two
reads could take, plus 2 when the declared format size is above 16. -/
theorem dataHeaderOffset_formula (u : Uninit) (filename : String) (content : List Nat) :
    dataHeaderOffset u filename content =
      min 12 content.length + min 24 (content.length - min 12 content.length) +
        (if subChunkSize (readHeaders u filename content).wave_format > 16 then 2 else 0) := by
  rw [readHeaders_wave_format]
  unfold dataHeaderOffset
  dsimp only
  rw [fread_stream u.riff_header]
  simp only [sizeof_RIFF_Header, Nat.zero_add, Nat.sub_zero]
  rw [fread_stream u.wave_format]
  simp only [sizeof_WAVE_Format, sizeof_short]
  split <;> simp [fseekCur]

theorem readHeaders_soundFile (u : Uninit) (filename : String) (content : List Nat) :
    (readHeaders u filename content).soundFile =
      ⟨filename, content, dataHeaderOffset u filename content +
        min 8 (content.length - dataHeaderOffset u filename content)⟩ := by
  unfold readHeaders dataHeaderOffset
  dsimp only
  rw [fread_stream u.wave_data]
  have hn : (fread u.wave_format sizeof_WAVE_Format 1
      (fread u.riff_header sizeof_RIFF_Header 1 ⟨filename, content, 0⟩).2.2).2.2.name
      = filename := rfl
  have hc : (fread u.wave_format sizeof_WAVE_Format 1
      (fread u.riff_header sizeof_RIFF_Header 1 ⟨filename, content, 0⟩).2.2).2.2.content
      = content := rfl
  generalize fread u.wave_format sizeof_WAVE_Format 1
      (fread u.riff_header sizeof_RIFF_Header 1 ⟨filename, content, 0⟩).2.2 = r2 at hn hc
  obtain ⟨d, k, ⟨nm, ct, ps⟩⟩ := r2
  dsimp only at hn hc
  subst hn hc
  split <;> simp [fseekCur, sizeof_WAVE_Data]

/-- What `loadWavFile` takes from two files that are equal outside the four fields
is the same. -/
theorem readHeaders_agree (u : Uninit) (filename : String) (f g : List Nat)
    (hsame : sameButIgnored f g = true) :
    (readHeaders u filename f).riffAccepted = (readHeaders u filename g).riffAccepted ∧
    (readHeaders u filename f).formatAccepted = (readHeaders u filename g).formatAccepted ∧
    sampleRate (readHeaders u filename f).wave_format
      = sampleRate (readHeaders u filename g).wave_format ∧
    (∀ old, selectFormat (readHeaders u filename f).wave_format old
      = selectFormat (readHeaders u filename g).wave_format old) ∧
    (readHeaders u filename f).wave_data = (readHeaders u filename g).wave_data ∧
    (readHeaders u filename f).soundFile.pos = (readHeaders u filename g).soundFile.pos ∧
    (readHeaders u filename f).remaining = (readHeaders u filename g).remaining ∧
    f.drop (readHeaders u filename f).soundFile.pos
      = g.drop (readHeaders u filename g).soundFile.pos := by
  obtain ⟨hlen, hbytes⟩ := sameButIgnored_spec f g hsame
  -- bytes of the outer header
  have hriff : ∀ k, ignoredOffset k = false →
      byteAt (readHeaders u filename f).riff_header k
        = byteAt (readHeaders u filename g).riff_header k := by
    intro k hk
    rw [readHeaders_riff_header, readHeaders_riff_header, byteAt_fread, byteAt_fread]
    dsimp only
    rw [hlen, Nat.zero_add, hbytes k hk]
  -- bytes of the format sub-record
  have hwf : ∀ k, ignoredOffset (12 + k) = false →
      byteAt (readHeaders u filename f).wave_format k
        = byteAt (readHeaders u filename g).wave_format k := by
    intro k hk
    rw [readHeaders_wave_format, readHeaders_wave_format, byteAt_fread, byteAt_fread]
    dsimp only
    rw [hlen]
    split
    · rename_i hlt
      have h12 : min 12 g.length = 12 := by omega
      rw [h12, hbytes (12 + k) hk]
    · rfl
  have hsize : subChunkSize (readHeaders u filename f).wave_format
      = subChunkSize (readHeaders u filename g).wave_format := by
    unfold subChunkSize longAt
    simp only [leNat]
    rw [hwf 4 (by decide), hwf (4 + 1) (by decide), hwf (4 + 1 + 1) (by decide),
      hwf (4 + 1 + 1 + 1) (by decide)]
  have hoff : dataHeaderOffset u filename f = dataHeaderOffset u filename g := by
    rw [dataHeaderOffset_formula, dataHeaderOffset_formula, hlen, hsize]
  have hoffge : g.length ≤ dataHeaderOffset u filename g ∨ 36 ≤ dataHeaderOffset u filename g := by
    rw [dataHeaderOffset_formula]
    omega
  have hdrop : ∀ p, dataHeaderOffset u filename g ≤ p → f.drop p = g.drop p := by
    intro p hp
    apply drop_eq_of_agree f g p hlen
    intro i hi
    rcases hoffge with h | h
    · rw [byteAt_of_length_le f i (by omega), byteAt_of_length_le g i (by omega)]
    · apply hbytes
      have : 36 ≤ i := by omega
      simp [ignoredOffset]
      omega
  have hwd : (readHeaders u filename f).wave_data = (readHeaders u filename g).wave_data := by
    rw [readHeaders_wave_data, readHeaders_wave_data, hoff]
    simp only [fread, Nat.mul_one]
    rw [hdrop _ (Nat.le_refl _)]
  have hpos : (readHeaders u filename f).soundFile.pos
      = (readHeaders u filename g).soundFile.pos := by
    rw [readHeaders_soundFile, readHeaders_soundFile, hoff, hlen]
  refine ⟨?_, ?_, ?_, ?_, hwd, hpos, ?_, ?_⟩
  · unfold Headers.riffAccepted tagDiffers
    rw [hriff 0 (by decide), hriff (0 + 1) (by decide), hriff (0 + 2) (by decide),
      hriff (0 + 3) (by decide), hriff 8 (by decide), hriff (8 + 1) (by decide),
      hriff (8 + 2) (by decide), hriff (8 + 3) (by decide)]
  · unfold Headers.formatAccepted tagDiffers
    rw [hwf 0 (by decide), hwf (0 + 1) (by decide), hwf (0 + 2) (by decide),
      hwf (0 + 3) (by decide)]
  · unfold sampleRate longAt
    simp only [leNat]
    rw [hwf 12 (by decide), hwf (12 + 1) (by decide), hwf (12 + 1 + 1) (by decide),
      hwf (12 + 1 + 1 + 1) (by decide)]
  · intro old
    have hch : numChannels (readHeaders u filename f).wave_format
        = numChannels (readHeaders u filename g).wave_format := by
      unfold numChannels shortAt
      simp only [leNat]
      rw [hwf 10 (by decide), hwf (10 + 1) (by decide)]
    have hbits : bitsPerSample (readHeaders u filename f).wave_format
        = bitsPerSample (readHeaders u filename g).wave_format := by
      unfold bitsPerSample shortAt
      simp only [leNat]
      rw [hwf 22 (by decide), hwf (22 + 1) (by decide)]
    unfold selectFormat
    rw [hch, hbits]
  · unfold Headers.remaining
    rw [hpos, readHeaders_soundFile, readHeaders_soundFile]
    dsimp only
    rw [hlen]
  · rw [hpos]
    apply hdrop
    rw [readHeaders_soundFile]
    dsimp only
    omega

theorem sameButIgnored_of (f g : List Nat) (hlen : f.length = g.length)
    (h : ∀ i, i < f.length → ignoredOffset i = true ∨ byteAt f i = byteAt g i) :
    sameButIgnored f g = true := by
  unfold sameButIgnored
  simp only [Bool.and_eq_true, beq_iff_eq, List.all_eq_true, List.mem_range, Bool.or_eq_true]
  exact ⟨hlen, h⟩

/-- Two containers of the standard layout that differ in the outer size, the format
code, the byte rate and the block align only are equal outside the ignored offsets. -/
theorem wavFile_sameButIgnored (cs cs' a a' c r br br' ba ba' bits n : Nat) (tail : List Nat) :
    sameButIgnored (wavFile cs a c r br ba bits n tail) (wavFile cs' a' c r br' ba' bits n tail)
      = true := by
  apply sameButIgnored_of
  · rw [wavFile_length, wavFile_length]
  · intro i _
    by_cases h44 : i < 44
    · simp only [wavFile, riffRecord, formatRecord, dataRecord, tagBytes, leBytes,
        List.cons_append, List.nil_append, byteAt]
      interval_cases i <;> simp [ignoredOffset]
    · right
      have e : ∀ x y z w : Nat, wavFile x y c r z w bits n tail =
          (riffRecord x ++ formatRecord y c r z w bits ++ dataRecord n) ++ tail := by
        intro x y z w
        simp [wavFile, List.append_assoc]
      have hl : ∀ x y z w : Nat,
          (riffRecord x ++ formatRecord y c r z w bits ++ dataRecord n).length = 44 := by
        intro x y z w
        simp [riffRecord_length, formatRecord_length, dataRecord_length]
      have hi : i = 44 + (i - 44) := by omega
      rw [e, e, hi]
      have h1 := byteAt_append_right (riffRecord cs ++ formatRecord a c r br ba bits ++ dataRecord n)
        tail (i - 44)
      have h2 := byteAt_append_right
        (riffRecord cs' ++ formatRecord a' c r br' ba' bits ++ dataRecord n) tail (i - 44)
      rw [hl] at h1 h2
      rw [h1, h2]

/-- C20. Two files of the same length that are equal at every offset outside the
outer 4-byte size (4..7), the 2-byte format code (20..21), the 4-byte byte rate
(28..31) and the 2-byte block align (32..33) give the same result of `loadWavFile`:
the same outcome, the same record (size, frequency, format, buffer name) and the same
calls, with the same payload bytes submitted to the device. In particular two
containers of the standard layout that differ in those four fields only, such as one
with a format code that is not PCM and one with the PCM code, load identically. -/
theorem loadWavFile_ignores_fields (fs fs' : FileSystem) (u : Uninit) (filename : String)
    (audioBuffer : AudioBuffer_t) (w : World) :
    (∀ f g : List Nat, fs filename = some f → fs' filename = some g →
      sameButIgnored f g = true →
      loadWavFile fs u filename audioBuffer w = loadWavFile fs' u filename audioBuffer w) ∧
    (∀ (chunkSize chunkSize' audioFormat audioFormat' channels rate byteRate byteRate'
        blockAlign blockAlign' bits declared : Nat) (tail : List Nat),
      fs filename = some (wavFile chunkSize audioFormat channels rate byteRate blockAlign bits
        declared tail) →
      fs' filename = some (wavFile chunkSize' audioFormat' channels rate byteRate' blockAlign'
        bits declared tail) →
      loadWavFile fs u filename audioBuffer w = loadWavFile fs' u filename audioBuffer w) := by
  have main : ∀ f g : List Nat, fs filename = some f → fs' filename = some g →
      sameButIgnored f g = true →
      loadWavFile fs u filename audioBuffer w = loadWavFile fs' u filename audioBuffer w := by
    intro f g hf hg hsame
    obtain ⟨hR, hF, hS, hSel, hD, _, hRem, hDrop⟩ := readHeaders_agree u filename f g hsame
    rw [loadWavFile_eq fs u filename audioBuffer w f hf,
      loadWavFile_eq fs' u filename audioBuffer w g hg]
    dsimp only
    unfold Headers.dataAccepted
    rw [hR, hF, hS, hSel, hD, hRem, hDrop]
  exact ⟨main, fun _ _ _ _ _ _ _ _ _ _ _ _ _ hf hg =>
    main _ _ hf hg (wavFile_sameButIgnored _ _ _ _ _ _ _ _ _ _ _ _ _)⟩

/-- C20, witness: a container with format code 85 and other size, byte rate and
block align fields loads exactly as `bleepWav` does. -/
theorem loadWavFile_ignores_fields_witness :
    sameButIgnored notPcmWav bleepWav = true ∧
    loadWavFile (fun _ => some notPcmWav) noGarbage "sound/bleep.wav" AudioBuffer_t.zero ⟨[], 0⟩
      = loadWavFile (fun _ => some bleepWav) noGarbage "sound/bleep.wav" AudioBuffer_t.zero
          ⟨[], 0⟩ :=
  ⟨by decide,
   (loadWavFile_ignores_fields (fun _ => some notPcmWav) (fun _ => some bleepWav) noGarbage
      "sound/bleep.wav" AudioBuffer_t.zero ⟨[], 0⟩).1 notPcmWav bleepWav rfl rfl (by decide)⟩

end AudMix
